import Mathlib

/-!
Verification of the PodletJS container-to-Quadlet pipeline.

The development embeds the `Container` model (js/container.js), the structured
value types `PortMapping`, `Volume`, `Environment` and the `QuadletGenerator`
serializer (types.js / quadlet-generator.js) as executable Lean definitions,
and proves the documented properties of validation, cloning, serialization
order, escaping and round-tripping.
-/

set_option maxRecDepth 4000

namespace Podlet

/-- Whitespace characters removed by JavaScript `String.prototype.trim`
(ASCII subset). -/
def isSpaceChar (c : Char) : Bool :=
  c == ' ' || c == '\t' || c == '\n' || c == '\r' || c == '\x0b' || c == '\x0c'

/-- Model of JavaScript `s.trim()`. -/
def jsTrim (s : String) : String :=
  String.mk (((s.data.dropWhile isSpaceChar).reverse.dropWhile isSpaceChar).reverse)

/-- Model of JavaScript `s.split(sep)` for a single-character separator:
always returns at least one (possibly empty) segment. -/
def splitOnChar (c : Char) : List Char → List (List Char)
  | [] => [[]]
  | x :: xs =>
    match splitOnChar c xs with
    | [] => [[]]
    | h :: t => if x = c then [] :: h :: t else (x :: h) :: t

/-- JavaScript `s.startsWith(c)` for a one-character needle. -/
def startsWithChar (c : Char) (s : String) : Bool :=
  match s.data with
  | [] => false
  | x :: _ => x == c

/-- JavaScript `s.endsWith(suffix)`. -/
def endsWithChars (suffix : List Char) (s : String) : Bool :=
  List.isPrefixOf suffix.reverse s.data.reverse

/-- The container model from `js/container.js`: one field per property
initialised in the `Container` constructor, in constructor order.  Scalar
properties that the source initialises to `null` are `Option String`. -/
structure Container where
  image : String
  containerName : Option String
  exec : Option String
  addCapability : List String
  dropCapability : List String
  addDevice : List String
  mount : List String
  volume : List String
  network : List String
  networkAlias : List String
  publishPort : List String
  exposeHostPort : List String
  ip : Option String
  ip6 : Option String
  dns : List String
  dnsOption : List String
  dnsSearch : List String
  environment : List String
  environmentFile : List String
  environmentHost : Bool
  noNewPrivileges : Bool
  securityLabelDisable : Bool
  securityLabelFileType : Option String
  securityLabelLevel : Option String
  securityLabelNested : Bool
  securityLabelType : Option String
  seccompProfile : Option String
  mask : List String
  unmask : Option String
  user : Option String
  group : Option String
  groupAdd : List String
  userNS : Option String
  uidMap : List String
  gidMap : List String
  subUidMap : Option String
  subGidMap : Option String
  readOnly : Bool
  readOnlyTmpfs : Bool
  runInit : Bool
  workingDir : Option String
  hostName : Option String
  timezone : Option String
  shmSize : Option String
  tmpfs : List String
  healthCmd : Option String
  healthInterval : Option String
  healthOnFailure : Option String
  healthRetries : Option String
  healthStartPeriod : Option String
  healthStartupCmd : Option String
  healthStartupInterval : Option String
  healthStartupRetries : Option String
  healthStartupSuccess : Option String
  healthStartupTimeout : Option String
  healthTimeout : Option String
  notify : String
  stopSignal : Option String
  stopTimeout : Option String
  pod : Option String
  logDriver : Option String
  logOpt : List String
  label : List String
  annotation : List String
  pidsLimit : Option String
  ulimit : List String
  sysctl : List String
  autoUpdate : Option String
  pull : Option String
  secret : List String
  rootfs : Option String
  entrypoint : Option String
  podmanArgs : Option String
deriving DecidableEq

/-- `new Container()`: the constructor defaults. -/
def Container.new : Container where
  image := ""
  containerName := none
  exec := none
  addCapability := []
  dropCapability := []
  addDevice := []
  mount := []
  volume := []
  network := []
  networkAlias := []
  publishPort := []
  exposeHostPort := []
  ip := none
  ip6 := none
  dns := []
  dnsOption := []
  dnsSearch := []
  environment := []
  environmentFile := []
  environmentHost := false
  noNewPrivileges := false
  securityLabelDisable := false
  securityLabelFileType := none
  securityLabelLevel := none
  securityLabelNested := false
  securityLabelType := none
  seccompProfile := none
  mask := []
  unmask := none
  user := none
  group := none
  groupAdd := []
  userNS := none
  uidMap := []
  gidMap := []
  subUidMap := none
  subGidMap := none
  readOnly := false
  readOnlyTmpfs := true
  runInit := false
  workingDir := none
  hostName := none
  timezone := none
  shmSize := none
  tmpfs := []
  healthCmd := none
  healthInterval := none
  healthOnFailure := none
  healthRetries := none
  healthStartPeriod := none
  healthStartupCmd := none
  healthStartupInterval := none
  healthStartupRetries := none
  healthStartupSuccess := none
  healthStartupTimeout := none
  healthTimeout := none
  notify := "conmon"
  stopSignal := none
  stopTimeout := none
  pod := none
  logDriver := none
  logOpt := []
  label := []
  annotation := []
  pidsLimit := none
  ulimit := []
  sysctl := []
  autoUpdate := none
  pull := none
  secret := []
  rootfs := none
  entrypoint := none
  podmanArgs := none

/-- The container-name pattern `^[a-zA-Z0-9][a-zA-Z0-9_.-]*$` from
`setContainerName`. -/
def matchesNamePattern (s : String) : Bool :=
  match s.data with
  | [] => false
  | c :: rest =>
    c.isAlphanum && rest.all (fun x => x.isAlphanum || x == '_' || x == '.' || x == '-')

/-- The protocol alternation `(tcp|udp|sctp)` of the port pattern. -/
def protoOk (p : List Char) : Bool :=
  p == "tcp".data || p == "udp".data || p == "sctp".data

/-- The anchored port pattern `^(\d+:)?\d+(\/(tcp|udp|sctp))?$` from
`addPublishPort`, decomposed deterministically (the `\d+` groups are maximal
digit runs, as in the regex). -/
def portShape (l : List Char) : Bool :=
  if (l.takeWhile Char.isDigit).isEmpty then false
  else
    match l.dropWhile Char.isDigit with
    | [] => true
    | ':' :: r2 =>
      if (r2.takeWhile Char.isDigit).isEmpty then false
      else
        match r2.dropWhile Char.isDigit with
        | [] => true
        | '/' :: p => protoOk p
        | _ => false
    | '/' :: p => protoOk p
    | _ => false

def matchesPortPattern (s : String) : Bool :=
  portShape s.data

/-- `trimmedPort.replace(/\/(?:tcp|udp|sctp)$/, '')`. -/
def stripProtoSuffix (s : String) : String :=
  if endsWithChars "/tcp".data s then String.mk (s.data.take (s.data.length - 4))
  else if endsWithChars "/udp".data s then String.mk (s.data.take (s.data.length - 4))
  else if endsWithChars "/sctp".data s then String.mk (s.data.take (s.data.length - 5))
  else s

/-- `parseInt(p, 10)` on the all-digit components guaranteed by the port
pattern. -/
def parseIntDigits (s : String) : Nat :=
  s.data.foldl (fun a c => a * 10 + (c.toNat - 48)) 0

/-- `setImage`: non-empty check, then store the trimmed image. -/
def Container.setImage (c : Container) (image : String) : Option Container :=
  if (jsTrim image).data.isEmpty then none
  else some { c with image := jsTrim image }

/-- `setContainerName`: non-empty check, then the name pattern on the trimmed
name, then store the trimmed name. -/
def Container.setContainerName (c : Container) (name : String) : Option Container :=
  if (jsTrim name).data.isEmpty then none
  else if matchesNamePattern (jsTrim name) then
    some { c with containerName := some (jsTrim name) }
  else none

/-- `setExec`: any string is accepted and stored as given. -/
def Container.setExec (c : Container) (command : String) : Option Container :=
  some { c with exec := some command }

/-- `addPublishPort`: non-empty check, the port pattern on the trimmed port,
then the 1..65535 range check on every colon-separated component after
stripping the protocol suffix; on success the trimmed port is pushed. -/
def Container.addPublishPort (c : Container) (port : String) : Option Container :=
  if (jsTrim port).data.isEmpty then none
  else
    let trimmedPort := jsTrim port
    if !matchesPortPattern trimmedPort then none
    else
      let portForValidation := stripProtoSuffix trimmedPort
      if ((splitOnChar ':' portForValidation.data).map String.mk).all
          (fun p => !(decide (parseIntDigits p < 1) || decide (65535 < parseIntDigits p))) then
        some { c with publishPort := c.publishPort ++ [trimmedPort] }
      else none

/-- `addEnvironment`: non-empty check, then the trimmed entry must contain
`=`; on success the trimmed entry is pushed. -/
def Container.addEnvironment (c : Container) (env : String) : Option Container :=
  if (jsTrim env).data.isEmpty then none
  else if !(jsTrim env).data.contains '=' then none
  else some { c with environment := c.environment ++ [jsTrim env] }

/-- `addVolume`: non-empty check, then the trimmed entry must contain `:` or
start with `/`; on success the trimmed entry is pushed. -/
def Container.addVolume (c : Container) (volume : String) : Option Container :=
  if (jsTrim volume).data.isEmpty then none
  else if !(jsTrim volume).data.contains ':' && !startsWithChar '/' (jsTrim volume) then none
  else some { c with volume := c.volume ++ [jsTrim volume] }

/-- `addLabel`: non-empty check, then the trimmed entry must contain `=`;
on success the trimmed entry is pushed. -/
def Container.addLabel (c : Container) (label : String) : Option Container :=
  if (jsTrim label).data.isEmpty then none
  else if !(jsTrim label).data.contains '=' then none
  else some { c with label := c.label ++ [jsTrim label] }

/-- `clone()`: a fresh `Container` with every primitive property copied and
every array property copied element-wise, in the source's order. -/
def Container.clone (c : Container) : Container :=
  { Container.new with
    image := c.image
    containerName := c.containerName
    exec := c.exec
    ip := c.ip
    ip6 := c.ip6
    environmentHost := c.environmentHost
    noNewPrivileges := c.noNewPrivileges
    securityLabelDisable := c.securityLabelDisable
    securityLabelFileType := c.securityLabelFileType
    securityLabelLevel := c.securityLabelLevel
    securityLabelNested := c.securityLabelNested
    securityLabelType := c.securityLabelType
    seccompProfile := c.seccompProfile
    unmask := c.unmask
    user := c.user
    group := c.group
    userNS := c.userNS
    subUidMap := c.subUidMap
    subGidMap := c.subGidMap
    readOnly := c.readOnly
    readOnlyTmpfs := c.readOnlyTmpfs
    runInit := c.runInit
    workingDir := c.workingDir
    hostName := c.hostName
    timezone := c.timezone
    shmSize := c.shmSize
    healthCmd := c.healthCmd
    healthInterval := c.healthInterval
    healthOnFailure := c.healthOnFailure
    healthRetries := c.healthRetries
    healthStartPeriod := c.healthStartPeriod
    healthTimeout := c.healthTimeout
    healthStartupCmd := c.healthStartupCmd
    healthStartupInterval := c.healthStartupInterval
    healthStartupRetries := c.healthStartupRetries
    healthStartupSuccess := c.healthStartupSuccess
    healthStartupTimeout := c.healthStartupTimeout
    notify := c.notify
    stopSignal := c.stopSignal
    stopTimeout := c.stopTimeout
    pod := c.pod
    logDriver := c.logDriver
    pidsLimit := c.pidsLimit
    autoUpdate := c.autoUpdate
    pull := c.pull
    rootfs := c.rootfs
    entrypoint := c.entrypoint
    podmanArgs := c.podmanArgs
    addCapability := c.addCapability
    dropCapability := c.dropCapability
    addDevice := c.addDevice
    mount := c.mount
    volume := c.volume
    network := c.network
    networkAlias := c.networkAlias
    publishPort := c.publishPort
    exposeHostPort := c.exposeHostPort
    dns := c.dns
    dnsOption := c.dnsOption
    dnsSearch := c.dnsSearch
    environment := c.environment
    environmentFile := c.environmentFile
    mask := c.mask
    groupAdd := c.groupAdd
    uidMap := c.uidMap
    gidMap := c.gidMap
    tmpfs := c.tmpfs
    label := c.label
    logOpt := c.logOpt
    annotation := Container.annotation c
    ulimit := c.ulimit
    sysctl := c.sysctl
    secret := c.secret }

/-- Port mapping configuration (types.js `PortMapping`). -/
structure PortMapping where
  hostPort : String
  containerPort : String
  protocol : String
deriving DecidableEq

/-- `PortMapping.prototype.toString`: equal ports collapse to one component
and the implicit `tcp` protocol is elided. -/
def PortMapping.toString (p : PortMapping) : String :=
  if p.hostPort = p.containerPort then
    if p.protocol = "tcp" then p.hostPort else p.hostPort ++ "/" ++ p.protocol
  else
    if p.protocol = "tcp" then p.hostPort ++ ":" ++ p.containerPort
    else p.hostPort ++ ":" ++ p.containerPort ++ "/" ++ p.protocol

/-- `PortMapping.parse`: an optional protocol after the first `/` (segment 1
of the `/` split), then the first two segments of the `:` split, defaulting
to `tcp` and to a self-mapped port. -/
def PortMapping.parse (s : String) : PortMapping :=
  let hasSlash := s.data.contains '/'
  let portPart := if hasSlash then String.mk (s.data.takeWhile (· != '/')) else s
  let protocol :=
    if hasSlash then String.mk (((s.data.dropWhile (· != '/')).drop 1).takeWhile (· != '/'))
    else "tcp"
  if portPart.data.contains ':' then
    PortMapping.mk (String.mk (portPart.data.takeWhile (· != ':')))
      (String.mk (((portPart.data.dropWhile (· != ':')).drop 1).takeWhile (· != ':')))
      protocol
  else PortMapping.mk portPart portPart protocol

/-- Volume mount configuration (types.js `Volume`). -/
structure Volume where
  source : String
  destination : String
  options : List String
deriving DecidableEq

/-- `Volume.prototype.toString`. -/
def Volume.toString (v : Volume) : String :=
  v.source ++ ":" ++ v.destination ++
    (if v.options.isEmpty then "" else ":" ++ String.intercalate "," v.options)

/-- `Volume.parse`: fewer than two `:`-separated parts is an error; the third
part, when present, is split on `,` into options. -/
def Volume.parse (s : String) : Option Volume :=
  let parts := (splitOnChar ':' s.data).map String.mk
  if parts.length < 2 then none
  else
    some (Volume.mk (parts.getD 0 "") (parts.getD 1 "")
      (if 2 < parts.length then (splitOnChar ',' (parts.getD 2 "").data).map String.mk else []))

/-- Environment variable configuration (types.js `Environment`). -/
structure Environment where
  key : String
  value : String
deriving DecidableEq

/-- `Environment.prototype.toString`. -/
def Environment.toString (e : Environment) : String :=
  e.key ++ "=" ++ e.value

/-- `Environment.parse`: split at the first `=` (no `=` gives an empty
value). -/
def Environment.parse (s : String) : Environment :=
  if s.data.contains '=' then
    Environment.mk (String.mk (s.data.takeWhile (· != '=')))
      (String.mk ((s.data.dropWhile (· != '=')).drop 1))
  else Environment.mk s ""

/-- `[Unit]` section configuration (types.js `Unit`). -/
structure Unit where
  description : Option String
  wants : List String
  requires : List String
  bindTo : List String
  after : List String
  before : List String
deriving DecidableEq

/-- `[Service]` section configuration (types.js `Service`). -/
structure Service where
  restart : Option String
  restartSec : Option String
  timeoutStartSec : Option String
  timeoutStopSec : Option String
deriving DecidableEq

/-- `[Install]` section configuration (types.js `Install`). -/
structure Install where
  wantedBy : List String
  requiredBy : List String
deriving DecidableEq

/-- Global Podman arguments (types.js `Globals`). -/
structure Globals where
  podmanArgs : Option String
deriving DecidableEq

namespace QuadletGenerator

/-- One `Key=value` line (without the trailing newline). -/
def ln (k v : String) : String :=
  k ++ "=" ++ v

/-- A `Key=value` line for an optional scalar property, following JavaScript
truthiness (`null` and `''` emit nothing). -/
def optLine (k : String) : Option String → List String
  | some s => if s.data.isEmpty then [] else [ln k s]
  | none => []

/-- Replace every occurrence of the character `c` by `r` (a global
single-character `String.prototype.replace`). -/
def replaceChar (c : Char) (r : String) (s : String) : String :=
  String.mk (s.data.foldr (fun ch acc => if ch = c then r.data ++ acc else ch :: acc) [])

/-- `escapeValue`: whenever the value contains a space, escape backslashes
first, then double quotes, and wrap the whole value in double quotes;
otherwise return the value unchanged. -/
def escapeValue (v : String) : String :=
  if v.data.contains ' ' then
    "\"" ++ replaceChar '"' "\\\"" (replaceChar '\\' "\\\\" v) ++ "\""
  else v

/-- The lines of the `[Container]` section in the source's emission order,
one list element per emitted line.  Transcribed block-for-block from
`generateContainerSection`. -/
def containerLines (c : Container) : List String :=
  [ln "Image" c.image]
  ++ optLine "ContainerName" c.containerName
  ++ optLine "Exec" c.exec
  ++ c.publishPort.map (fun port => ln "PublishPort" port)
  ++ c.volume.map (fun v => ln "Volume" v)
  ++ c.environment.map (fun env => ln "Environment" (escapeValue env))
  ++ c.environmentFile.map (fun file => ln "EnvironmentFile" file)
  ++ (if c.environmentHost then [ln "EnvironmentHost" "true"] else [])
  ++ c.label.map (fun lab => ln "Label" (escapeValue lab))
  ++ c.network.map (fun nw => ln "Network" nw)
  ++ c.networkAlias.map (fun al => ln "NetworkAlias" al)
  ++ (if c.addCapability.isEmpty then []
      else [ln "AddCapability" (String.intercalate " " c.addCapability)])
  ++ (if c.dropCapability.isEmpty then []
      else [ln "DropCapability" (String.intercalate " " c.dropCapability)])
  ++ (if c.dns.isEmpty then []
      else if c.dns.contains "none" then [ln "DNS" "none"]
      else c.dns.map (fun d => ln "DNS" d))
  ++ c.dnsOption.map (fun o => ln "DNSOption" o)
  ++ c.dnsSearch.map (fun sr => ln "DNSSearch" sr)
  ++ (if c.noNewPrivileges then [ln "NoNewPrivileges" "true"] else [])
  ++ (if c.securityLabelDisable then [ln "SecurityLabelDisable" "true"] else [])
  ++ optLine "SecurityLabelFileType" c.securityLabelFileType
  ++ optLine "SecurityLabelLevel" c.securityLabelLevel
  ++ (if c.securityLabelNested then [ln "SecurityLabelNested" "true"] else [])
  ++ optLine "SecurityLabelType" c.securityLabelType
  ++ optLine "SeccompProfile" c.seccompProfile
  ++ (if c.mask.isEmpty then [] else [ln "Mask" (String.intercalate ":" c.mask)])
  ++ optLine "Unmask" c.unmask
  ++ optLine "User" c.user
  ++ optLine "Group" c.group
  ++ c.groupAdd.map (fun g => ln "GroupAdd" g)
  ++ optLine "UserNS" c.userNS
  ++ c.uidMap.map (fun m => ln "UIDMap" m)
  ++ c.gidMap.map (fun m => ln "GIDMap" m)
  ++ optLine "SubUIDMap" c.subUidMap
  ++ optLine "SubGIDMap" c.subGidMap
  ++ (if c.readOnly then [ln "ReadOnly" "true"] else [])
  ++ (if c.readOnlyTmpfs then [] else [ln "ReadOnlyTmpfs" "false"])
  ++ (if c.runInit then [ln "RunInit" "true"] else [])
  ++ optLine "WorkingDir" c.workingDir
  ++ optLine "HostName" c.hostName
  ++ optLine "Timezone" c.timezone
  ++ optLine "ShmSize" c.shmSize
  ++ c.tmpfs.map (fun t => ln "Tmpfs" t)
  ++ optLine "HealthCmd" c.healthCmd
  ++ optLine "HealthInterval" c.healthInterval
  ++ optLine "HealthOnFailure" c.healthOnFailure
  ++ optLine "HealthRetries" c.healthRetries
  ++ optLine "HealthStartPeriod" c.healthStartPeriod
  ++ optLine "HealthTimeout" c.healthTimeout
  ++ optLine "HealthStartupCmd" c.healthStartupCmd
  ++ optLine "HealthStartupInterval" c.healthStartupInterval
  ++ optLine "HealthStartupRetries" c.healthStartupRetries
  ++ optLine "HealthStartupSuccess" c.healthStartupSuccess
  ++ optLine "HealthStartupTimeout" c.healthStartupTimeout
  ++ (if ¬(c.notify = "") ∧ ¬(c.notify = "conmon") then
        if c.notify = "container" then [ln "Notify" "true"]
        else if c.notify = "healthy" then [ln "Notify" "healthy"]
        else []
      else [])
  ++ optLine "StopSignal" c.stopSignal
  ++ optLine "StopTimeout" c.stopTimeout
  ++ optLine "Pod" c.pod
  ++ optLine "LogDriver" c.logDriver
  ++ c.logOpt.map (fun o => ln "LogOpt" o)
  ++ ( Container.annotation c).map (fun a => ln "Annotation" (escapeValue a))
  ++ optLine "PidsLimit" c.pidsLimit
  ++ c.ulimit.map (fun u => ln "Ulimit" u)
  ++ c.sysctl.map (fun sc => ln "Sysctl" sc)
  ++ optLine "AutoUpdate" c.autoUpdate
  ++ optLine "Pull" c.pull
  ++ c.secret.map (fun sec => ln "Secret" sec)
  ++ optLine "Rootfs" c.rootfs
  ++ optLine "Entrypoint" c.entrypoint
  ++ optLine "IP" c.ip
  ++ optLine "IP6" c.ip6
  ++ optLine "PodmanArgs" c.podmanArgs

/-- `generateContainerSection`: the `[Container]` header followed by every
line of `containerLines`, each terminated by a newline. -/
def generateContainerSection (c : Container) : String :=
  "[Container]\n" ++ String.join ((containerLines c).map (fun l => l ++ "\n"))

/-- `generateUnitSection`. -/
def generateUnitSection (u : Unit) : String :=
  "[Unit]\n"
  ++ (match u.description with
      | some d => if d.data.isEmpty then "" else "Description=" ++ d ++ "\n"
      | none => "")
  ++ (if u.wants.isEmpty then "" else "Wants=" ++ String.intercalate " " u.wants ++ "\n")
  ++ (if u.requires.isEmpty then "" else "Requires=" ++ String.intercalate " " u.requires ++ "\n")
  ++ (if u.after.isEmpty then "" else "After=" ++ String.intercalate " " u.after ++ "\n")
  ++ (if u.before.isEmpty then "" else "Before=" ++ String.intercalate " " u.before ++ "\n")

/-- `generateServiceSection`. -/
def generateServiceSection (s : Service) : String :=
  "[Service]\n"
  ++ (match s.restart with
      | some r => if r.data.isEmpty then "" else "Restart=" ++ r ++ "\n"
      | none => "")
  ++ (match s.restartSec with
      | some r => if r.data.isEmpty then "" else "RestartSec=" ++ r ++ "\n"
      | none => "")
  ++ (match s.timeoutStartSec with
      | some t => if t.data.isEmpty then "" else "TimeoutStartSec=" ++ t ++ "\n"
      | none => "")

/-- `generateInstallSection`. -/
def generateInstallSection (i : Install) : String :=
  "[Install]\n"
  ++ (if i.wantedBy.isEmpty then "" else "WantedBy=" ++ String.intercalate " " i.wantedBy ++ "\n")
  ++ (if i.requiredBy.isEmpty then "" else "RequiredBy=" ++ String.intercalate " " i.requiredBy ++ "\n")

/-- The caller-supplied options of `generateFile` (`name` has no effect on
the produced text). -/
structure GenerateOptions where
  name : Option String
  unit : Option Unit
  service : Option Service
  install : Option Install
  globals : Option Globals
deriving DecidableEq

/-- `generateFile`: optional `[Unit]` plus a separating newline, the
`[Container]` section, then the optional `[GlobalArgs]`, `[Service]` and
`[Install]` parts, each prefixed by a separating newline. -/
def generateFile (c : Container) (opts : GenerateOptions) : String :=
  (match opts.unit with
   | some u => generateUnitSection u ++ "\n"
   | none => "")
  ++ generateContainerSection c
  ++ (match opts.globals with
      | some g =>
        match g.podmanArgs with
        | some p => if p.data.isEmpty then "" else "\n[GlobalArgs]\nPodmanArgs=" ++ p ++ "\n"
        | none => ""
      | none => "")
  ++ (match opts.service with
      | some sv => "\n" ++ generateServiceSection sv
      | none => "")
  ++ (match opts.install with
      | some ins => "\n" ++ generateInstallSection ins
      | none => "")

end QuadletGenerator

/-- The key of an emitted `Key=value` line: everything before the first `=`. -/
def lineKey (s : String) : List Char :=
  s.data.takeWhile (· != '=')

/-- The lines of a section that carry the given key. -/
def filterKey (k : String) (lines : List String) : List String :=
  lines.filter (fun s => lineKey s == k.data)

/-- A well-formed Quadlet key: no `=` inside. -/
def goodKey (k : String) : Bool :=
  k.data.all (· != '=')

/-- The claim-side escaping: every backslash doubled first, then every double
quote preceded by a backslash, in one character-wise pass. -/
def escapeSpec (s : String) : String :=
  String.mk (s.data.foldr
    (fun ch acc =>
      if ch = '\\' then '\\' :: '\\' :: acc
      else if ch = '"' then '\\' :: '"' :: acc
      else ch :: acc) [])

/-- The claim-side publish-port range condition: every colon-separated
component, after protocol-suffix stripping, is an integer in [1, 65535]. -/
def portComponentsInRange (s : String) : Bool :=
  ((splitOnChar ':' (stripProtoSuffix s).data).map String.mk).all
    (fun p => decide (1 ≤ parseIntDigits p) && decide (parseIntDigits p ≤ 65535))

/-- Join section texts with one separating newline between consecutive
sections. -/
def sepJoin : List String → String
  | [] => ""
  | [s] => s
  | s :: rest => s ++ "\n" ++ sepJoin rest

/-- The text ends with a newline character. -/
def endsWithNewline (s : String) : Bool :=
  s.data.getLast? == some '\n'

/-! ### Basic facts about strings and the character-level helpers -/

theorem data_append (s t : String) : (s ++ t).data = s.data ++ t.data := by
  cases s
  cases t
  rfl

theorem mk_data (s : String) : String.mk s.data = s := by
  cases s
  rfl

theorem takeWhile_bne_append (c : Char) (l r : List Char) (h : ∀ x ∈ l, x ≠ c) :
    (l ++ c :: r).takeWhile (· != c) = l := by
  induction l with
  | nil => simp [List.takeWhile_cons]
  | cons x t ih =>
    have hx : x ≠ c := h x (by simp)
    simp only [List.cons_append, List.takeWhile_cons, bne_iff_ne, ne_eq, hx,
      not_false_eq_true, if_true, ite_true]
    exact congrArg (x :: ·) (ih (fun y hy => h y (by simp [hy])))

theorem dropWhile_bne_append (c : Char) (l r : List Char) (h : ∀ x ∈ l, x ≠ c) :
    (l ++ c :: r).dropWhile (· != c) = c :: r := by
  induction l with
  | nil => simp [List.dropWhile_cons]
  | cons x t ih =>
    have hx : x ≠ c := h x (by simp)
    simp only [List.cons_append, List.dropWhile_cons, bne_iff_ne, ne_eq, hx,
      not_false_eq_true, if_true, ite_true]
    exact ih (fun y hy => h y (by simp [hy]))

theorem takeWhile_bne_all (c : Char) (l : List Char) (h : ∀ x ∈ l, x ≠ c) :
    l.takeWhile (· != c) = l := by
  induction l with
  | nil => rfl
  | cons x t ih =>
    have hx : x ≠ c := h x (by simp)
    simp only [List.takeWhile_cons, bne_iff_ne, ne_eq, hx, not_false_eq_true, ite_true]
    exact congrArg (x :: ·) (ih (fun y hy => h y (by simp [hy])))

theorem contains_eq_false (c : Char) (l : List Char) (h : ∀ x ∈ l, x ≠ c) :
    l.contains c = false := by
  have : c ∉ l := fun hc => h c hc rfl
  simpa using this

theorem contains_mem (c : Char) (l : List Char) (h : l.contains c = true) : c ∈ l := by
  simpa using h

theorem dropWhile_bne_of_mem (c : Char) (l : List Char) (h : c ∈ l) :
    ∃ r, l.dropWhile (· != c) = c :: r := by
  induction l with
  | nil => cases h
  | cons x t ih =>
    by_cases hx : x = c
    · subst hx
      exact ⟨t, by simp [List.dropWhile_cons]⟩
    · have ht : c ∈ t := by
        rcases List.mem_cons.mp h with h' | h'
        · exact absurd h'.symm hx
        · exact h'
      rcases ih ht with ⟨r, hr⟩
      exact ⟨r, by simpa [List.dropWhile_cons, hx] using hr⟩

theorem takeWhile_bne_append_dropWhile (c : Char) (l : List Char) :
    l.takeWhile (· != c) ++ l.dropWhile (· != c) = l :=
  List.takeWhile_append_dropWhile (fun x => x != c) l

theorem splitOnChar_ne_nil (c : Char) (l : List Char) : splitOnChar c l ≠ [] := by
  induction l with
  | nil => simp [splitOnChar]
  | cons x t ih =>
    unfold splitOnChar
    cases hs : splitOnChar c t with
    | nil => simp
    | cons h' t' =>
      by_cases hx : x = c <;> simp [hx]

theorem splitOnChar_length_ge_two (c : Char) (l : List Char) (h : c ∈ l) :
    2 ≤ (splitOnChar c l).length := by
  induction l with
  | nil => cases h
  | cons x t ih =>
    unfold splitOnChar
    cases hs : splitOnChar c t with
    | nil => exact absurd hs (splitOnChar_ne_nil c t)
    | cons h' t' =>
      by_cases hx : x = c
      · simp [hx]
      · have ht : c ∈ t := by
          rcases List.mem_cons.mp h with h'' | h''
          · exact absurd h''.symm hx
          · exact h''
        have := ih ht
        rw [hs] at this
        simp only [if_neg hx, List.length_cons] at this ⊢
        omega

theorem dropWhile_all_false {p : Char → Bool} (l : List Char) (h : ∀ x ∈ l, p x = false) :
    l.dropWhile p = l := by
  cases l with
  | nil => rfl
  | cons x t => simp [List.dropWhile_cons, h x (by simp)]

theorem jsTrim_eq_self (s : String) (h : ∀ x ∈ s.data, isSpaceChar x = false) :
    jsTrim s = s := by
  unfold jsTrim
  rw [dropWhile_all_false s.data h,
    dropWhile_all_false s.data.reverse (fun x hx => h x (List.mem_reverse.mp hx)),
    List.reverse_reverse]

theorem digit_facts (x : Char) (h : x.isDigit = true) :
    x ≠ ':' ∧ x ≠ '/' ∧ x ≠ '=' ∧ isSpaceChar x = false := by
  refine ⟨?_, ?_, ?_, ?_⟩
  · rintro rfl; exact absurd h (by decide)
  · rintro rfl; exact absurd h (by decide)
  · rintro rfl; exact absurd h (by decide)
  · by_contra hs
    have hs' : isSpaceChar x = true := by
      cases hx : isSpaceChar x
      · exact absurd hx hs
      · rfl
    unfold isSpaceChar at hs'
    simp only [Bool.or_eq_true, beq_iff_eq] at hs'
    rcases hs' with ((((rfl | rfl) | rfl) | rfl) | rfl) | rfl <;> exact absurd h (by decide)

theorem data_mk (l : List Char) : (String.mk l).data = l := rfl

theorem mk_append_mk (a b : List Char) : String.mk a ++ String.mk b = String.mk (a ++ b) := rfl

/-! ### Decomposition of the port pattern and the port round trip -/

theorem protoOk_cases (p : List Char) (hp : protoOk p = true) :
    p = "tcp".data ∨ p = "udp".data ∨ p = "sctp".data := by
  unfold protoOk at hp
  simp only [Bool.or_eq_true, beq_iff_eq] at hp
  tauto

theorem portShape_spec (l : List Char) (h : portShape l = true) :
    ∃ d1 : List Char, (∀ x ∈ d1, x.isDigit = true) ∧ d1 ≠ [] ∧
      (l = d1 ∨
       (∃ p, protoOk p = true ∧ l = d1 ++ '/' :: p) ∨
       (∃ d2, (∀ x ∈ d2, x.isDigit = true) ∧ d2 ≠ [] ∧
         (l = d1 ++ ':' :: d2 ∨
          ∃ p, protoOk p = true ∧ l = d1 ++ ':' :: d2 ++ '/' :: p))) := by
  have hsplit : l.takeWhile Char.isDigit ++ l.dropWhile Char.isDigit = l :=
    List.takeWhile_append_dropWhile Char.isDigit l
  refine ⟨l.takeWhile Char.isDigit, fun x hx => List.mem_takeWhile_imp hx, ?_, ?_⟩
  · unfold portShape at h
    intro hnil
    rw [hnil] at h
    simp at h
  · unfold portShape at h
    split at h
    · exact absurd h (by simp)
    · split at h
      · rename_i heq0
        rw [heq0, List.append_nil] at hsplit
        exact Or.inl hsplit.symm
      · rename_i r2 heq1
        split at h
        · exact absurd h (by simp)
        · rename_i hemp
          have hsplit2 : r2.takeWhile Char.isDigit ++ r2.dropWhile Char.isDigit = r2 :=
            List.takeWhile_append_dropWhile Char.isDigit r2
          have hd2 : ∀ x ∈ r2.takeWhile Char.isDigit, x.isDigit = true :=
            fun x hx => List.mem_takeWhile_imp hx
          have hne2 : r2.takeWhile Char.isDigit ≠ [] := by
            intro hnil
            rw [hnil] at hemp
            simp at hemp
          refine Or.inr (Or.inr ⟨r2.takeWhile Char.isDigit, hd2, hne2, ?_⟩)
          split at h
          · rename_i heq2
            rw [heq2, List.append_nil] at hsplit2
            rw [heq1, ← hsplit2] at hsplit
            exact Or.inl hsplit.symm
          · rename_i p heq2
            refine Or.inr ⟨p, h, ?_⟩
            rw [heq2] at hsplit2
            rw [heq1, ← hsplit2] at hsplit
            simpa using hsplit.symm
          · exact absurd h (by simp)
      · rename_i p heq1
        refine Or.inr (Or.inl ⟨p, h, ?_⟩)
        rw [heq1] at hsplit
        exact hsplit.symm
      · exact absurd h (by simp)

theorem digits_ne_slash (d : List Char) (hd : ∀ x ∈ d, x.isDigit = true) :
    ∀ x ∈ d, x ≠ '/' :=
  fun x hx => (digit_facts x (hd x hx)).2.1

theorem digits_ne_colon (d : List Char) (hd : ∀ x ∈ d, x.isDigit = true) :
    ∀ x ∈ d, x ≠ ':' :=
  fun x hx => (digit_facts x (hd x hx)).1

theorem contains_eq_true (c : Char) (l : List Char) (h : c ∈ l) : l.contains c = true := by
  simpa using h

theorem parse_digits (d : List Char) (hd : ∀ x ∈ d, x.isDigit = true) :
    PortMapping.parse (String.mk d) = ⟨String.mk d, String.mk d, "tcp"⟩ := by
  have h1 : '/' ∉ d := fun hx => digits_ne_slash d hd '/' hx rfl
  have h2 : ':' ∉ d := fun hx => digits_ne_colon d hd ':' hx rfl
  unfold PortMapping.parse
  simp [data_mk, h1, h2]

theorem parse_digits_colon (d1 d2 : List Char)
    (h1 : ∀ x ∈ d1, x.isDigit = true) (h2 : ∀ x ∈ d2, x.isDigit = true) :
    PortMapping.parse (String.mk (d1 ++ ':' :: d2)) = ⟨String.mk d1, String.mk d2, "tcp"⟩ := by
  have hs1 : '/' ∉ d1 := fun hx => digits_ne_slash d1 h1 '/' hx rfl
  have hs2 : '/' ∉ d2 := fun hx => digits_ne_slash d2 h2 '/' hx rfl
  have ht : (d1 ++ ':' :: d2).takeWhile (· != ':') = d1 :=
    takeWhile_bne_append ':' d1 d2 (digits_ne_colon d1 h1)
  have hd : (d1 ++ ':' :: d2).dropWhile (· != ':') = ':' :: d2 :=
    dropWhile_bne_append ':' d1 d2 (digits_ne_colon d1 h1)
  have ht2 : d2.takeWhile (· != ':') = d2 :=
    takeWhile_bne_all ':' d2 (digits_ne_colon d2 h2)
  unfold PortMapping.parse
  simp [data_mk, hs1, hs2, ht, hd, ht2]

theorem proto_ne_slash (p : List Char) (hp : protoOk p = true) : ∀ x ∈ p, x ≠ '/' := by
  rcases protoOk_cases p hp with rfl | rfl | rfl <;> decide

theorem proto_ne_colon (p : List Char) (hp : protoOk p = true) : ∀ x ∈ p, x ≠ ':' := by
  rcases protoOk_cases p hp with rfl | rfl | rfl <;> decide

theorem parse_digits_proto (d p : List Char)
    (hd : ∀ x ∈ d, x.isDigit = true) (hp : protoOk p = true) :
    PortMapping.parse (String.mk (d ++ '/' :: p)) =
      ⟨String.mk d, String.mk d, String.mk p⟩ := by
  have ht : (d ++ '/' :: p).takeWhile (· != '/') = d :=
    takeWhile_bne_append '/' d p (digits_ne_slash d hd)
  have hdr : (d ++ '/' :: p).dropWhile (· != '/') = '/' :: p :=
    dropWhile_bne_append '/' d p (digits_ne_slash d hd)
  have ht2 : p.takeWhile (· != '/') = p :=
    takeWhile_bne_all '/' p (proto_ne_slash p hp)
  have hc : ':' ∉ d := fun hx => digits_ne_colon d hd ':' hx rfl
  unfold PortMapping.parse
  simp [data_mk, ht, hdr, ht2, hc]

theorem parse_digits_colon_proto (d1 d2 p : List Char)
    (h1 : ∀ x ∈ d1, x.isDigit = true) (h2 : ∀ x ∈ d2, x.isDigit = true)
    (hp : protoOk p = true) :
    PortMapping.parse (String.mk (d1 ++ ':' :: d2 ++ '/' :: p)) =
      ⟨String.mk d1, String.mk d2, String.mk p⟩ := by
  have hnp : ∀ x ∈ d1 ++ ':' :: d2, x ≠ '/' := by
    intro x hx
    rcases List.mem_append.mp hx with hx1 | hx2
    · exact digits_ne_slash d1 h1 x hx1
    · rcases List.mem_cons.mp hx2 with rfl | hx3
      · decide
      · exact digits_ne_slash d2 h2 x hx3
  have ht : (d1 ++ ':' :: (d2 ++ '/' :: p)).takeWhile (· != '/') = d1 ++ ':' :: d2 := by
    have := takeWhile_bne_append '/' (d1 ++ ':' :: d2) p hnp
    simpa using this
  have hdr : (d1 ++ ':' :: (d2 ++ '/' :: p)).dropWhile (· != '/') = '/' :: p := by
    have := dropWhile_bne_append '/' (d1 ++ ':' :: d2) p hnp
    simpa using this
  have htp : p.takeWhile (· != '/') = p :=
    takeWhile_bne_all '/' p (proto_ne_slash p hp)
  have ht1 : (d1 ++ ':' :: d2).takeWhile (· != ':') = d1 :=
    takeWhile_bne_append ':' d1 d2 (digits_ne_colon d1 h1)
  have hd1 : (d1 ++ ':' :: d2).dropWhile (· != ':') = ':' :: d2 :=
    dropWhile_bne_append ':' d1 d2 (digits_ne_colon d1 h1)
  have ht2 : d2.takeWhile (· != ':') = d2 :=
    takeWhile_bne_all ':' d2 (digits_ne_colon d2 h2)
  unfold PortMapping.parse
  simp [data_mk, ht, hdr, htp, ht1, hd1, ht2]

theorem str_sep (a : List Char) (c : Char) (b : List Char) :
    String.mk a ++ String.mk [c] ++ String.mk b = String.mk (a ++ c :: b) := by
  rw [mk_append_mk, mk_append_mk]
  congr 1
  simp

theorem str_sep2 (a : List Char) (c : Char) (b : List Char) (c' : Char) (e : List Char) :
    String.mk a ++ String.mk [c] ++ String.mk b ++ String.mk [c'] ++ String.mk e =
      String.mk (a ++ c :: b ++ c' :: e) := by
  rw [mk_append_mk, mk_append_mk, mk_append_mk, mk_append_mk]
  congr 1
  simp

/-- Parsing the serialized form of a parsed, pattern-conforming port string
gives back the same structured port mapping. -/
theorem parse_toString_roundtrip (l : List Char) (h : portShape l = true) :
    PortMapping.parse (PortMapping.toString (PortMapping.parse (String.mk l))) =
      PortMapping.parse (String.mk l) := by
  rcases portShape_spec l h with ⟨d1, hd1, -, hcase⟩
  rcases hcase with heq | ⟨p, hp, heq⟩ | ⟨d2, hd2, -, heq | ⟨p, hp, heq⟩⟩ <;> rw [heq]
  · rw [parse_digits d1 hd1]
    simp only [PortMapping.toString, if_true, eq_self_iff_true]
    exact parse_digits d1 hd1
  · rw [parse_digits_proto d1 p hd1 hp]
    rcases protoOk_cases p hp with rfl | rfl | rfl
    · rw [mk_data "tcp"]
      simp only [PortMapping.toString, if_true, eq_self_iff_true]
      exact parse_digits d1 hd1
    · rw [mk_data "udp"]
      simp only [PortMapping.toString, if_true, eq_self_iff_true,
        if_neg (by decide : ¬("udp" : String) = "tcp")]
      rw [show ("/" : String) = String.mk ['/'] from rfl,
        show ("udp" : String) = String.mk "udp".data from rfl, str_sep,
        parse_digits_proto d1 "udp".data hd1 (by decide), mk_data]
    · rw [mk_data "sctp"]
      simp only [PortMapping.toString, if_true, eq_self_iff_true,
        if_neg (by decide : ¬("sctp" : String) = "tcp")]
      rw [show ("/" : String) = String.mk ['/'] from rfl,
        show ("sctp" : String) = String.mk "sctp".data from rfl, str_sep,
        parse_digits_proto d1 "sctp".data hd1 (by decide), mk_data]
  · rw [parse_digits_colon d1 d2 hd1 hd2]
    by_cases h12 : String.mk d1 = String.mk d2
    · simp only [PortMapping.toString, if_pos h12, if_true, eq_self_iff_true]
      rw [parse_digits d1 hd1, h12]
    · simp only [PortMapping.toString, if_neg h12, if_true, eq_self_iff_true]
      rw [show (":" : String) = String.mk [':'] from rfl, str_sep]
      exact parse_digits_colon d1 d2 hd1 hd2
  · rw [parse_digits_colon_proto d1 d2 p hd1 hd2 hp]
    rcases protoOk_cases p hp with rfl | rfl | rfl
    · rw [mk_data "tcp"]
      by_cases h12 : String.mk d1 = String.mk d2
      · simp only [PortMapping.toString, if_pos h12, if_true, eq_self_iff_true]
        rw [parse_digits d1 hd1, h12]
      · simp only [PortMapping.toString, if_neg h12, if_true, eq_self_iff_true]
        rw [show (":" : String) = String.mk [':'] from rfl, str_sep]
        exact parse_digits_colon d1 d2 hd1 hd2
    · rw [mk_data "udp"]
      by_cases h12 : String.mk d1 = String.mk d2
      · simp only [PortMapping.toString, if_pos h12, if_true, eq_self_iff_true,
          if_neg (by decide : ¬("udp" : String) = "tcp")]
        rw [show ("/" : String) = String.mk ['/'] from rfl,
          show ("udp" : String) = String.mk "udp".data from rfl, str_sep,
          parse_digits_proto d1 "udp".data hd1 (by decide), mk_data, h12]
      · simp only [PortMapping.toString, if_neg h12, if_true, eq_self_iff_true,
          if_neg (by decide : ¬("udp" : String) = "tcp")]
        rw [show (":" : String) = String.mk [':'] from rfl,
          show ("/" : String) = String.mk ['/'] from rfl,
          show ("udp" : String) = String.mk "udp".data from rfl, str_sep2,
          parse_digits_colon_proto d1 d2 "udp".data hd1 hd2 (by decide), mk_data]
    · rw [mk_data "sctp"]
      by_cases h12 : String.mk d1 = String.mk d2
      · simp only [PortMapping.toString, if_pos h12, if_true, eq_self_iff_true,
          if_neg (by decide : ¬("sctp" : String) = "tcp")]
        rw [show ("/" : String) = String.mk ['/'] from rfl,
          show ("sctp" : String) = String.mk "sctp".data from rfl, str_sep,
          parse_digits_proto d1 "sctp".data hd1 (by decide), mk_data, h12]
      · simp only [PortMapping.toString, if_neg h12, if_true, eq_self_iff_true,
          if_neg (by decide : ¬("sctp" : String) = "tcp")]
        rw [show (":" : String) = String.mk [':'] from rfl,
          show ("/" : String) = String.mk ['/'] from rfl,
          show ("sctp" : String) = String.mk "sctp".data from rfl, str_sep2,
          parse_digits_colon_proto d1 d2 "sctp".data hd1 hd2 (by decide), mk_data]

/-! ### Facts about `addPublishPort` and the other validating mutators -/

theorem portShape_all (l : List Char) (h : portShape l = true) (P : Char → Prop)
    (hdig : ∀ x, x.isDigit = true → P x) (hcolon : P ':') (hslash : P '/')
    (hprot : ∀ p, protoOk p = true → ∀ x ∈ p, P x) : ∀ x ∈ l, P x := by
  rcases portShape_spec l h with ⟨d1, hd1, -, hcase⟩
  rcases hcase with rfl | ⟨p, hp, rfl⟩ | ⟨d2, hd2, -, rfl | ⟨p, hp, rfl⟩⟩ <;>
    intro x hx <;>
    (try simp only [List.mem_append, List.mem_cons] at hx) <;>
    (try casesm* _ ∨ _) <;>
    first
      | exact hdig x (hd1 x (by assumption))
      | exact hdig x (hd2 x (by assumption))
      | exact hprot p hp x (by assumption)
      | (rw [show x = ':' from by assumption]; exact hcolon)
      | (rw [show x = '/' from by assumption]; exact hslash)

theorem portShape_chars (l : List Char) (h : portShape l = true) :
    ∀ x ∈ l, isSpaceChar x = false := by
  refine portShape_all l h (fun x => isSpaceChar x = false)
    (fun x hx => (digit_facts x hx).2.2.2) (by decide) (by decide) ?_
  intro p hp
  rcases protoOk_cases p hp with rfl | rfl | rfl <;> decide

theorem portShape_ne_nil (l : List Char) (h : portShape l = true) : l ≠ [] := by
  intro hnil
  rw [hnil] at h
  exact absurd h (by decide)

/-- A string that already matches the port pattern is left unchanged by
trimming. -/
theorem jsTrim_of_matches (s : String) (h : matchesPortPattern s = true) :
    jsTrim s = s :=
  jsTrim_eq_self s (portShape_chars s.data h)

theorem rangeOk_pointwise (n : Nat) :
    (!(decide (n < 1) || decide (65535 < n))) =
      (decide (1 ≤ n) && decide (n ≤ 65535)) := by
  by_cases h1 : 1 ≤ n <;> by_cases h2 : n ≤ 65535 <;>
    simp [h1, h2] <;> omega

theorem rangeOk_all (ps : List String) :
    (ps.all fun p => !(decide (parseIntDigits p < 1) || decide (65535 < parseIntDigits p))) =
      (ps.all fun p => decide (1 ≤ parseIntDigits p) && decide (parseIntDigits p ≤ 65535)) := by
  induction ps with
  | nil => rfl
  | cons q qs ih => simp only [List.all_cons, rangeOk_pointwise, ih]

/-- `addPublishPort` accepts exactly the strings whose trimmed form matches
the port pattern with every component in the valid range, and then appends
the trimmed string. -/
theorem addPublishPort_spec (c : Container) (s : String) :
    ((Container.addPublishPort c s).isSome = true ↔
      (matchesPortPattern (jsTrim s) = true ∧ portComponentsInRange (jsTrim s) = true)) ∧
    (∀ c', Container.addPublishPort c s = some c' →
      c' = { c with publishPort := c.publishPort ++ [jsTrim s] }) := by
  constructor
  · unfold Container.addPublishPort
    by_cases hempty : (jsTrim s).data.isEmpty = true
    · have hdata : (jsTrim s).data = [] := by simpa using hempty
      have hmatch : matchesPortPattern (jsTrim s) = false := by
        unfold matchesPortPattern
        rw [hdata]
        decide
      simp [hempty, hmatch]
    · by_cases hmatch : matchesPortPattern (jsTrim s) = true
      · unfold portComponentsInRange
        rw [← rangeOk_all]
        by_cases hall :
            (((splitOnChar ':' (stripProtoSuffix (jsTrim s)).data).map String.mk).all
              fun p => !(decide (parseIntDigits p < 1) ||
                decide (65535 < parseIntDigits p))) = true
        · simp [hempty, hmatch, hall]
        · simp [hempty, hmatch, hall]
      · have hmatch' : matchesPortPattern (jsTrim s) = false := by
          cases hm : matchesPortPattern (jsTrim s)
          · rfl
          · exact absurd hm hmatch
        simp [hempty, hmatch']
  · intro c' hc'
    unfold Container.addPublishPort at hc'
    by_cases hempty : (jsTrim s).data.isEmpty = true
    · rw [if_pos hempty] at hc'
      cases hc'
    · rw [if_neg hempty] at hc'
      by_cases hmatch : matchesPortPattern (jsTrim s) = true
      · simp only [hmatch, Bool.not_true, Bool.false_eq_true, if_false, ite_false] at hc'
        split at hc'
        · injection hc' with h
          exact h.symm
        · cases hc'
      · have hmatch' : matchesPortPattern (jsTrim s) = false := by
          cases hm : matchesPortPattern (jsTrim s)
          · rfl
          · exact absurd hm hmatch
        simp only [hmatch', Bool.not_false, if_true, ite_true] at hc'
        cases hc'

/-! ### Environment, volume and escaping support -/

/-- Printing a parsed entry that contains a `=` reconstructs the entry. -/
theorem env_parse_toString (l : List Char) (h : l.contains '=' = true) :
    Environment.toString (Environment.parse (String.mk l)) = String.mk l := by
  have hmem : '=' ∈ l := contains_mem '=' l h
  rcases dropWhile_bne_of_mem '=' l hmem with ⟨r, hr⟩
  have hsplit : l.takeWhile (· != '=') ++ '=' :: r = l := by
    have hx := takeWhile_bne_append_dropWhile '=' l
    rw [hr] at hx
    exact hx
  unfold Environment.parse
  rw [data_mk, if_pos h]
  unfold Environment.toString
  simp only [data_mk, hr]
  rw [show ('=' :: r).drop 1 = r from rfl,
    show ("=" : String) = String.mk ['='] from rfl, str_sep, hsplit]

theorem escapeValue_no_space (v : String) (h : v.data.contains ' ' = false) :
    QuadletGenerator.escapeValue v = v := by
  have h' : ' ' ∉ v.data := by simpa using h
  simp [QuadletGenerator.escapeValue, h']

/-- Any entry containing a `:` parses successfully as a volume. -/
theorem volume_parse_isSome (l : List Char) (h : l.contains ':' = true) :
    (Volume.parse (String.mk l)).isSome = true := by
  have h2 : 2 ≤ (splitOnChar ':' l).length :=
    splitOnChar_length_ge_two ':' l (contains_mem ':' l h)
  have hlen : ¬(((splitOnChar ':' l).map String.mk).length < 2) := by
    rw [List.length_map]
    omega
  unfold Volume.parse
  simp [data_mk, hlen]
  exact h2

/-! ### The update behaviour of the validating mutators -/

theorem setImage_spec (c : Container) (s : String) :
    ((Container.setImage c s).isSome = true ↔ (jsTrim s).data.isEmpty = false) ∧
    (∀ c', Container.setImage c s = some c' → c' = { c with image := jsTrim s }) := by
  constructor
  · unfold Container.setImage
    by_cases hempty : (jsTrim s).data.isEmpty = true <;> simp [hempty]
  · intro c' hc'
    unfold Container.setImage at hc'
    split at hc'
    · cases hc'
    · injection hc' with h
      exact h.symm

theorem setContainerName_spec (c : Container) (s : String) :
    ((Container.setContainerName c s).isSome = true ↔
      matchesNamePattern (jsTrim s) = true) ∧
    (∀ c', Container.setContainerName c s = some c' →
      c' = { c with containerName := some (jsTrim s) }) := by
  constructor
  · unfold Container.setContainerName
    by_cases hempty : (jsTrim s).data.isEmpty = true
    · have hdata : (jsTrim s).data = [] := by simpa using hempty
      have hpat : matchesNamePattern (jsTrim s) = false := by
        unfold matchesNamePattern
        rw [hdata]
      simp [hempty, hpat]
    · by_cases hname : matchesNamePattern (jsTrim s) = true <;> simp [hempty, hname]
  · intro c' hc'
    unfold Container.setContainerName at hc'
    split at hc'
    · cases hc'
    · split at hc'
      · injection hc' with h
        exact h.symm
      · cases hc'

theorem setExec_spec (c : Container) (s : String) :
    Container.setExec c s = some { c with exec := some s } := rfl

theorem addEnvironment_spec (c : Container) (s : String) :
    ((Container.addEnvironment c s).isSome = true ↔
      ((jsTrim s).data.isEmpty = false ∧ (jsTrim s).data.contains '=' = true)) ∧
    (∀ c', Container.addEnvironment c s = some c' →
      c' = { c with environment := c.environment ++ [jsTrim s] }) := by
  constructor
  · unfold Container.addEnvironment
    by_cases hempty : (jsTrim s).data.isEmpty = true
    · simp [hempty]
    · by_cases heq : (jsTrim s).data.contains '=' = true <;> simp [hempty, heq]
  · intro c' hc'
    unfold Container.addEnvironment at hc'
    split at hc'
    · cases hc'
    · split at hc'
      · cases hc'
      · injection hc' with h
        exact h.symm

theorem addVolume_spec (c : Container) (s : String) :
    ((Container.addVolume c s).isSome = true ↔
      ((jsTrim s).data.isEmpty = false ∧
        ((jsTrim s).data.contains ':' = true ∨ startsWithChar '/' (jsTrim s) = true))) ∧
    (∀ c', Container.addVolume c s = some c' →
      c' = { c with volume := c.volume ++ [jsTrim s] }) := by
  constructor
  · unfold Container.addVolume
    by_cases hempty : (jsTrim s).data.isEmpty = true
    · simp [hempty]
    · by_cases hcolon : (jsTrim s).data.contains ':' = true <;>
        by_cases hslash : startsWithChar '/' (jsTrim s) = true <;>
        simp [hempty, hcolon, hslash]
  · intro c' hc'
    unfold Container.addVolume at hc'
    split at hc'
    · cases hc'
    · split at hc'
      · cases hc'
      · injection hc' with h
        exact h.symm

theorem addLabel_spec (c : Container) (s : String) :
    ((Container.addLabel c s).isSome = true ↔
      ((jsTrim s).data.isEmpty = false ∧ (jsTrim s).data.contains '=' = true)) ∧
    (∀ c', Container.addLabel c s = some c' →
      c' = { c with label := c.label ++ [jsTrim s] }) := by
  constructor
  · unfold Container.addLabel
    by_cases hempty : (jsTrim s).data.isEmpty = true
    · simp [hempty]
    · by_cases heq : (jsTrim s).data.contains '=' = true <;> simp [hempty, heq]
  · intro c' hc'
    unfold Container.addLabel at hc'
    split at hc'
    · cases hc'
    · split at hc'
      · cases hc'
      · injection hc' with h
        exact h.symm

theorem addEnvironment_contains (c : Container) (s : String) (c' : Container)
    (h : Container.addEnvironment c s = some c') :
    (jsTrim s).data.contains '=' = true := by
  unfold Container.addEnvironment at h
  split at h
  · cases h
  · split at h
    · cases h
    · rename_i hcond
      simpa using hcond

theorem addPublishPort_matches (c : Container) (s : String) (c' : Container)
    (h : Container.addPublishPort c s = some c') :
    matchesPortPattern (jsTrim s) = true := by
  unfold Container.addPublishPort at h
  split at h
  · cases h
  · by_cases hm : matchesPortPattern (jsTrim s) = true
    · exact hm
    · have hm' : matchesPortPattern (jsTrim s) = false := by
        cases hq : matchesPortPattern (jsTrim s)
        · rfl
        · exact absurd hq hm
      simp [hm'] at h

/-! ### Attributing emitted `[Container]` lines to their keys -/

theorem data_eq_iff (a b : String) : a.data = b.data ↔ a = b := by
  constructor
  · intro h
    cases a
    cases b
    cases h
    rfl
  · intro h
    rw [h]

theorem beq_data (a b : String) : (a.data == b.data) = decide (a = b) := by
  by_cases h : a = b
  · simp [h]
  · have hd : ¬a.data = b.data := fun hd => h ((data_eq_iff a b).mp hd)
    simp [h, hd]

theorem goodKey_chars (k : String) (h : goodKey k = true) : ∀ x ∈ k.data, x ≠ '=' := by
  intro x hx
  have := List.all_eq_true.mp h x hx
  simpa using this

theorem lineKey_ln (k v : String) (h : goodKey k = true) :
    lineKey (QuadletGenerator.ln k v) = k.data := by
  unfold lineKey QuadletGenerator.ln
  rw [data_append, data_append]
  have hassoc : (k.data ++ ("=" : String).data) ++ v.data = k.data ++ '=' :: v.data := by
    simp
  rw [hassoc]
  exact takeWhile_bne_append '=' k.data v.data (goodKey_chars k h)

theorem filterKey_nil (K : String) : filterKey K [] = [] := rfl

theorem filterKey_append (K : String) (a b : List String) :
    filterKey K (a ++ b) = filterKey K a ++ filterKey K b :=
  List.filter_append a b

theorem filterKey_ite (K : String) (p : Prop) [Decidable p] (a b : List String) :
    filterKey K (if p then a else b) = if p then filterKey K a else filterKey K b := by
  split <;> rfl

theorem filterKey_single (K k v : String) (h : goodKey k = true) :
    filterKey K [QuadletGenerator.ln k v] =
      if k = K then [QuadletGenerator.ln k v] else [] := by
  unfold filterKey
  simp only [List.filter_cons, List.filter_nil, lineKey_ln k v h, beq_data]
  by_cases hk : k = K <;> simp [hk]

theorem filterKey_map (K k : String) (f : String → String) (l : List String)
    (h : goodKey k = true) :
    filterKey K (l.map fun x => QuadletGenerator.ln k (f x)) =
      if k = K then (l.map fun x => QuadletGenerator.ln k (f x)) else [] := by
  induction l with
  | nil => by_cases hk : k = K <;> simp [filterKey, hk]
  | cons x xs ih =>
    unfold filterKey at ih ⊢
    simp only [List.map_cons, List.filter_cons, lineKey_ln k (f x) h, beq_data]
    by_cases hk : k = K <;> simp [hk] at ih ⊢ <;> exact ih

theorem filterKey_map_plain (K k : String) (l : List String) (h : goodKey k = true) :
    filterKey K (l.map fun x => QuadletGenerator.ln k x) =
      if k = K then (l.map fun x => QuadletGenerator.ln k x) else [] := by
  induction l with
  | nil => by_cases hk : k = K <;> simp [filterKey, hk]
  | cons x xs ih =>
    unfold filterKey at ih ⊢
    simp only [List.map_cons, List.filter_cons, lineKey_ln k x h, beq_data]
    by_cases hk : k = K <;> simp [hk] at ih ⊢ <;> exact ih

theorem filterKey_optLine (K k : String) (v : Option String) (h : goodKey k = true) :
    filterKey K (QuadletGenerator.optLine k v) =
      if k = K then QuadletGenerator.optLine k v else [] := by
  cases v with
  | none => by_cases hk : k = K <;> simp [QuadletGenerator.optLine, filterKey, hk]
  | some s =>
    by_cases hs : s.data.isEmpty = true
    · by_cases hk : k = K <;> simp [QuadletGenerator.optLine, filterKey, hs, hk]
    · simp only [QuadletGenerator.optLine, if_neg hs]
      exact filterKey_single K k s h

/-- Master attribution lemma: the `[Container]` lines carrying any given key
are exactly the block of the one field serialized under that key. -/
theorem filterKey_containerLines (K : String) (c : Container) :
    filterKey K (QuadletGenerator.containerLines c) =
    (if "Image" = K then [QuadletGenerator.ln "Image" c.image] else [])
  ++ (if "ContainerName" = K then QuadletGenerator.optLine "ContainerName" c.containerName else [])
  ++ (if "Exec" = K then QuadletGenerator.optLine "Exec" c.exec else [])
  ++ (if "PublishPort" = K then c.publishPort.map (fun port => QuadletGenerator.ln "PublishPort" port) else [])
  ++ (if "Volume" = K then c.volume.map (fun v => QuadletGenerator.ln "Volume" v) else [])
  ++ (if "Environment" = K then c.environment.map (fun env => QuadletGenerator.ln "Environment" (QuadletGenerator.escapeValue env)) else [])
  ++ (if "EnvironmentFile" = K then c.environmentFile.map (fun file => QuadletGenerator.ln "EnvironmentFile" file) else [])
  ++ (if c.environmentHost then (if "EnvironmentHost" = K then [QuadletGenerator.ln "EnvironmentHost" "true"] else []) else [])
  ++ (if "Label" = K then c.label.map (fun lab => QuadletGenerator.ln "Label" (QuadletGenerator.escapeValue lab)) else [])
  ++ (if "Network" = K then c.network.map (fun nw => QuadletGenerator.ln "Network" nw) else [])
  ++ (if "NetworkAlias" = K then c.networkAlias.map (fun al => QuadletGenerator.ln "NetworkAlias" al) else [])
  ++ (if c.addCapability.isEmpty then [] else (if "AddCapability" = K then [QuadletGenerator.ln "AddCapability" (String.intercalate " " c.addCapability)] else []))
  ++ (if c.dropCapability.isEmpty then [] else (if "DropCapability" = K then [QuadletGenerator.ln "DropCapability" (String.intercalate " " c.dropCapability)] else []))
  ++ (if c.dns.isEmpty then []
      else if c.dns.contains "none" then (if "DNS" = K then [QuadletGenerator.ln "DNS" "none"] else [])
      else (if "DNS" = K then c.dns.map (fun d => QuadletGenerator.ln "DNS" d) else []))
  ++ (if "DNSOption" = K then c.dnsOption.map (fun o => QuadletGenerator.ln "DNSOption" o) else [])
  ++ (if "DNSSearch" = K then c.dnsSearch.map (fun sr => QuadletGenerator.ln "DNSSearch" sr) else [])
  ++ (if c.noNewPrivileges then (if "NoNewPrivileges" = K then [QuadletGenerator.ln "NoNewPrivileges" "true"] else []) else [])
  ++ (if c.securityLabelDisable then (if "SecurityLabelDisable" = K then [QuadletGenerator.ln "SecurityLabelDisable" "true"] else []) else [])
  ++ (if "SecurityLabelFileType" = K then QuadletGenerator.optLine "SecurityLabelFileType" c.securityLabelFileType else [])
  ++ (if "SecurityLabelLevel" = K then QuadletGenerator.optLine "SecurityLabelLevel" c.securityLabelLevel else [])
  ++ (if c.securityLabelNested then (if "SecurityLabelNested" = K then [QuadletGenerator.ln "SecurityLabelNested" "true"] else []) else [])
  ++ (if "SecurityLabelType" = K then QuadletGenerator.optLine "SecurityLabelType" c.securityLabelType else [])
  ++ (if "SeccompProfile" = K then QuadletGenerator.optLine "SeccompProfile" c.seccompProfile else [])
  ++ (if c.mask.isEmpty then [] else (if "Mask" = K then [QuadletGenerator.ln "Mask" (String.intercalate ":" c.mask)] else []))
  ++ (if "Unmask" = K then QuadletGenerator.optLine "Unmask" c.unmask else [])
  ++ (if "User" = K then QuadletGenerator.optLine "User" c.user else [])
  ++ (if "Group" = K then QuadletGenerator.optLine "Group" c.group else [])
  ++ (if "GroupAdd" = K then c.groupAdd.map (fun g => QuadletGenerator.ln "GroupAdd" g) else [])
  ++ (if "UserNS" = K then QuadletGenerator.optLine "UserNS" c.userNS else [])
  ++ (if "UIDMap" = K then c.uidMap.map (fun m => QuadletGenerator.ln "UIDMap" m) else [])
  ++ (if "GIDMap" = K then c.gidMap.map (fun m => QuadletGenerator.ln "GIDMap" m) else [])
  ++ (if "SubUIDMap" = K then QuadletGenerator.optLine "SubUIDMap" c.subUidMap else [])
  ++ (if "SubGIDMap" = K then QuadletGenerator.optLine "SubGIDMap" c.subGidMap else [])
  ++ (if c.readOnly then (if "ReadOnly" = K then [QuadletGenerator.ln "ReadOnly" "true"] else []) else [])
  ++ (if c.readOnlyTmpfs then [] else (if "ReadOnlyTmpfs" = K then [QuadletGenerator.ln "ReadOnlyTmpfs" "false"] else []))
  ++ (if c.runInit then (if "RunInit" = K then [QuadletGenerator.ln "RunInit" "true"] else []) else [])
  ++ (if "WorkingDir" = K then QuadletGenerator.optLine "WorkingDir" c.workingDir else [])
  ++ (if "HostName" = K then QuadletGenerator.optLine "HostName" c.hostName else [])
  ++ (if "Timezone" = K then QuadletGenerator.optLine "Timezone" c.timezone else [])
  ++ (if "ShmSize" = K then QuadletGenerator.optLine "ShmSize" c.shmSize else [])
  ++ (if "Tmpfs" = K then c.tmpfs.map (fun t => QuadletGenerator.ln "Tmpfs" t) else [])
  ++ (if "HealthCmd" = K then QuadletGenerator.optLine "HealthCmd" c.healthCmd else [])
  ++ (if "HealthInterval" = K then QuadletGenerator.optLine "HealthInterval" c.healthInterval else [])
  ++ (if "HealthOnFailure" = K then QuadletGenerator.optLine "HealthOnFailure" c.healthOnFailure else [])
  ++ (if "HealthRetries" = K then QuadletGenerator.optLine "HealthRetries" c.healthRetries else [])
  ++ (if "HealthStartPeriod" = K then QuadletGenerator.optLine "HealthStartPeriod" c.healthStartPeriod else [])
  ++ (if "HealthTimeout" = K then QuadletGenerator.optLine "HealthTimeout" c.healthTimeout else [])
  ++ (if "HealthStartupCmd" = K then QuadletGenerator.optLine "HealthStartupCmd" c.healthStartupCmd else [])
  ++ (if "HealthStartupInterval" = K then QuadletGenerator.optLine "HealthStartupInterval" c.healthStartupInterval else [])
  ++ (if "HealthStartupRetries" = K then QuadletGenerator.optLine "HealthStartupRetries" c.healthStartupRetries else [])
  ++ (if "HealthStartupSuccess" = K then QuadletGenerator.optLine "HealthStartupSuccess" c.healthStartupSuccess else [])
  ++ (if "HealthStartupTimeout" = K then QuadletGenerator.optLine "HealthStartupTimeout" c.healthStartupTimeout else [])
  ++ (if ¬(c.notify = "") ∧ ¬(c.notify = "conmon") then
        (if c.notify = "container" then (if "Notify" = K then [QuadletGenerator.ln "Notify" "true"] else [])
         else if c.notify = "healthy" then (if "Notify" = K then [QuadletGenerator.ln "Notify" "healthy"] else [])
         else [])
      else [])
  ++ (if "StopSignal" = K then QuadletGenerator.optLine "StopSignal" c.stopSignal else [])
  ++ (if "StopTimeout" = K then QuadletGenerator.optLine "StopTimeout" c.stopTimeout else [])
  ++ (if "Pod" = K then QuadletGenerator.optLine "Pod" c.pod else [])
  ++ (if "LogDriver" = K then QuadletGenerator.optLine "LogDriver" c.logDriver else [])
  ++ (if "LogOpt" = K then c.logOpt.map (fun o => QuadletGenerator.ln "LogOpt" o) else [])
  ++ (if "Annotation" = K then ( Container.annotation c).map (fun a => QuadletGenerator.ln "Annotation" (QuadletGenerator.escapeValue a)) else [])
  ++ (if "PidsLimit" = K then QuadletGenerator.optLine "PidsLimit" c.pidsLimit else [])
  ++ (if "Ulimit" = K then c.ulimit.map (fun u => QuadletGenerator.ln "Ulimit" u) else [])
  ++ (if "Sysctl" = K then c.sysctl.map (fun sc => QuadletGenerator.ln "Sysctl" sc) else [])
  ++ (if "AutoUpdate" = K then QuadletGenerator.optLine "AutoUpdate" c.autoUpdate else [])
  ++ (if "Pull" = K then QuadletGenerator.optLine "Pull" c.pull else [])
  ++ (if "Secret" = K then c.secret.map (fun sec => QuadletGenerator.ln "Secret" sec) else [])
  ++ (if "Rootfs" = K then QuadletGenerator.optLine "Rootfs" c.rootfs else [])
  ++ (if "Entrypoint" = K then QuadletGenerator.optLine "Entrypoint" c.entrypoint else [])
  ++ (if "IP" = K then QuadletGenerator.optLine "IP" c.ip else [])
  ++ (if "IP6" = K then QuadletGenerator.optLine "IP6" c.ip6 else [])
  ++ (if "PodmanArgs" = K then QuadletGenerator.optLine "PodmanArgs" c.podmanArgs else []) := by
  unfold QuadletGenerator.containerLines
  simp only [filterKey_append, filterKey_ite, filterKey_nil, filterKey_map_plain,
    filterKey_map, filterKey_optLine, filterKey_single,
    (show goodKey "AddCapability" = true by decide),
    (show goodKey "Annotation" = true by decide),
    (show goodKey "AutoUpdate" = true by decide),
    (show goodKey "ContainerName" = true by decide),
    (show goodKey "DNS" = true by decide),
    (show goodKey "DNSOption" = true by decide),
    (show goodKey "DNSSearch" = true by decide),
    (show goodKey "DropCapability" = true by decide),
    (show goodKey "Entrypoint" = true by decide),
    (show goodKey "Environment" = true by decide),
    (show goodKey "EnvironmentFile" = true by decide),
    (show goodKey "EnvironmentHost" = true by decide),
    (show goodKey "Exec" = true by decide),
    (show goodKey "GIDMap" = true by decide),
    (show goodKey "Group" = true by decide),
    (show goodKey "GroupAdd" = true by decide),
    (show goodKey "HealthCmd" = true by decide),
    (show goodKey "HealthInterval" = true by decide),
    (show goodKey "HealthOnFailure" = true by decide),
    (show goodKey "HealthRetries" = true by decide),
    (show goodKey "HealthStartPeriod" = true by decide),
    (show goodKey "HealthStartupCmd" = true by decide),
    (show goodKey "HealthStartupInterval" = true by decide),
    (show goodKey "HealthStartupRetries" = true by decide),
    (show goodKey "HealthStartupSuccess" = true by decide),
    (show goodKey "HealthStartupTimeout" = true by decide),
    (show goodKey "HealthTimeout" = true by decide),
    (show goodKey "HostName" = true by decide),
    (show goodKey "IP" = true by decide),
    (show goodKey "IP6" = true by decide),
    (show goodKey "Image" = true by decide),
    (show goodKey "Label" = true by decide),
    (show goodKey "LogDriver" = true by decide),
    (show goodKey "LogOpt" = true by decide),
    (show goodKey "Mask" = true by decide),
    (show goodKey "Network" = true by decide),
    (show goodKey "NetworkAlias" = true by decide),
    (show goodKey "NoNewPrivileges" = true by decide),
    (show goodKey "Notify" = true by decide),
    (show goodKey "PidsLimit" = true by decide),
    (show goodKey "Pod" = true by decide),
    (show goodKey "PodmanArgs" = true by decide),
    (show goodKey "PublishPort" = true by decide),
    (show goodKey "Pull" = true by decide),
    (show goodKey "ReadOnly" = true by decide),
    (show goodKey "ReadOnlyTmpfs" = true by decide),
    (show goodKey "Rootfs" = true by decide),
    (show goodKey "RunInit" = true by decide),
    (show goodKey "SeccompProfile" = true by decide),
    (show goodKey "Secret" = true by decide),
    (show goodKey "SecurityLabelDisable" = true by decide),
    (show goodKey "SecurityLabelFileType" = true by decide),
    (show goodKey "SecurityLabelLevel" = true by decide),
    (show goodKey "SecurityLabelNested" = true by decide),
    (show goodKey "SecurityLabelType" = true by decide),
    (show goodKey "ShmSize" = true by decide),
    (show goodKey "StopSignal" = true by decide),
    (show goodKey "StopTimeout" = true by decide),
    (show goodKey "SubGIDMap" = true by decide),
    (show goodKey "SubUIDMap" = true by decide),
    (show goodKey "Sysctl" = true by decide),
    (show goodKey "Timezone" = true by decide),
    (show goodKey "Tmpfs" = true by decide),
    (show goodKey "UIDMap" = true by decide),
    (show goodKey "Ulimit" = true by decide),
    (show goodKey "Unmask" = true by decide),
    (show goodKey "User" = true by decide),
    (show goodKey "UserNS" = true by decide),
    (show goodKey "Volume" = true by decide),
    (show goodKey "WorkingDir" = true by decide)]

/-! ### Section layout of `generateFile` -/

theorem join_cons (a : String) (l : List String) :
    String.join (a :: l) = a ++ String.join l := by
  have key : ∀ (m : List String) (x : String),
      List.foldl (· ++ ·) x m = x ++ List.foldl (· ++ ·) "" m := by
    intro m
    induction m with
    | nil => exact fun x => (String.append_empty x).symm
    | cons y ys ih =>
      intro x
      show List.foldl (· ++ ·) (x ++ y) ys = x ++ List.foldl (· ++ ·) ("" ++ y) ys
      rw [ih (x ++ y), ih ("" ++ y), String.empty_append, String.append_assoc]
  unfold String.join
  show List.foldl (· ++ ·) ("" ++ a) l = a ++ List.foldl (· ++ ·) "" l
  rw [String.empty_append]
  exact key l a

theorem endsNL_append_right (a b : String) (hb : endsWithNewline b = true) :
    endsWithNewline (a ++ b) = true := by
  unfold endsWithNewline at hb ⊢
  have hlast : b.data.getLast? = some '\n' := by simpa using hb
  rw [data_append, List.getLast?_append, hlast]
  rfl

theorem endsNL_append_nl (a : String) : endsWithNewline (a ++ "\n") = true :=
  endsNL_append_right a "\n" (by decide)

theorem endsNL_append_opt (a b : String) (ha : endsWithNewline a = true)
    (hb : b = "" ∨ endsWithNewline b = true) : endsWithNewline (a ++ b) = true := by
  rcases hb with rfl | hb
  · rw [String.append_empty]
    exact ha
  · exact endsNL_append_right a b hb

theorem piece_ite (p : Prop) [Decidable p] (x : String) :
    (if p then "" else x ++ "\n") = "" ∨
      endsWithNewline (if p then "" else x ++ "\n") = true := by
  by_cases h : p
  · exact Or.inl (by rw [if_pos h])
  · exact Or.inr (by rw [if_neg h]; exact endsNL_append_nl x)

theorem piece_ite' (p : Prop) [Decidable p] (x : String) :
    (if p then [] else [x]).isEmpty = true ∨ True := Or.inr trivial

theorem generateUnitSection_endsNL (u : Unit) :
    endsWithNewline (QuadletGenerator.generateUnitSection u) = true := by
  unfold QuadletGenerator.generateUnitSection
  refine endsNL_append_opt _ _
    (endsNL_append_opt _ _
      (endsNL_append_opt _ _
        (endsNL_append_opt _ _
          (endsNL_append_opt _ _ (by decide) ?_) ?_) ?_) ?_) ?_
  · cases u.description with
    | none => exact Or.inl rfl
    | some d => exact piece_ite (d.data.isEmpty = true) ("Description=" ++ d)
  · exact piece_ite (u.wants.isEmpty = true) ("Wants=" ++ String.intercalate " " u.wants)
  · exact piece_ite (u.requires.isEmpty = true) ("Requires=" ++ String.intercalate " " u.requires)
  · exact piece_ite (u.after.isEmpty = true) ("After=" ++ String.intercalate " " u.after)
  · exact piece_ite (u.before.isEmpty = true) ("Before=" ++ String.intercalate " " u.before)

theorem generateServiceSection_endsNL (s : Service) :
    endsWithNewline (QuadletGenerator.generateServiceSection s) = true := by
  unfold QuadletGenerator.generateServiceSection
  refine endsNL_append_opt _ _
    (endsNL_append_opt _ _
      (endsNL_append_opt _ _ (by decide) ?_) ?_) ?_
  · cases s.restart with
    | none => exact Or.inl rfl
    | some r => exact piece_ite (r.data.isEmpty = true) ("Restart=" ++ r)
  · cases s.restartSec with
    | none => exact Or.inl rfl
    | some r => exact piece_ite (r.data.isEmpty = true) ("RestartSec=" ++ r)
  · cases s.timeoutStartSec with
    | none => exact Or.inl rfl
    | some t => exact piece_ite (t.data.isEmpty = true) ("TimeoutStartSec=" ++ t)

theorem generateInstallSection_endsNL (i : Install) :
    endsWithNewline (QuadletGenerator.generateInstallSection i) = true := by
  unfold QuadletGenerator.generateInstallSection
  refine endsNL_append_opt _ _ (endsNL_append_opt _ _ (by decide) ?_) ?_
  · exact piece_ite (i.wantedBy.isEmpty = true) ("WantedBy=" ++ String.intercalate " " i.wantedBy)
  · exact piece_ite (i.requiredBy.isEmpty = true)
      ("RequiredBy=" ++ String.intercalate " " i.requiredBy)

theorem generateContainerSection_endsNL (c : Container) :
    endsWithNewline (QuadletGenerator.generateContainerSection c) = true := by
  unfold QuadletGenerator.generateContainerSection
  refine endsNL_append_opt _ _ (by decide) ?_
  generalize QuadletGenerator.containerLines c = l
  induction l with
  | nil => exact Or.inl rfl
  | cons x xs ih =>
    right
    rw [List.map_cons, join_cons]
    rcases ih with h0 | h1
    · rw [h0, String.append_empty]
      exact endsNL_append_nl x
    · exact endsNL_append_right _ _ h1

/-- `generateFile` is the newline-separated join of the present sections, in
the fixed order Unit, Container, GlobalArgs, Service, Install. -/
theorem generateFile_sepJoin (c : Container) (o : QuadletGenerator.GenerateOptions) :
    QuadletGenerator.generateFile c o =
      sepJoin ((o.unit.map QuadletGenerator.generateUnitSection).toList
        ++ [QuadletGenerator.generateContainerSection c]
        ++ (match o.globals with
            | some g =>
              match g.podmanArgs with
              | some p =>
                if p.data.isEmpty then [] else ["[GlobalArgs]\nPodmanArgs=" ++ p ++ "\n"]
              | none => []
            | none => [])
        ++ (o.service.map QuadletGenerator.generateServiceSection).toList
        ++ (o.install.map QuadletGenerator.generateInstallSection).toList) := by
  obtain ⟨nm, u, sv, ins, g⟩ := o
  unfold QuadletGenerator.generateFile
  rcases g with - | ⟨gp⟩
  · cases u <;> cases sv <;> cases ins <;>
      simp [sepJoin, String.append_assoc, String.append_empty, String.empty_append]
  · rcases gp with - | p
    · cases u <;> cases sv <;> cases ins <;>
        simp [sepJoin, String.append_assoc, String.append_empty, String.empty_append]
    · by_cases hp : p.data.isEmpty = true <;>
        cases u <;> cases sv <;> cases ins <;>
        simp [hp, sepJoin, String.append_assoc, String.append_empty, String.empty_append] <;>
        rfl

/-! ### The escaping rule -/

theorem escape_chain_list : ∀ l : List Char,
    (l.foldr (fun ch acc => if ch = '\\' then '\\' :: '\\' :: acc else ch :: acc) []).foldr
      (fun ch acc => if ch = '"' then '\\' :: '"' :: acc else ch :: acc) [] =
    l.foldr (fun ch acc =>
      if ch = '\\' then '\\' :: '\\' :: acc
      else if ch = '"' then '\\' :: '"' :: acc
      else ch :: acc) [] := by
  intro l
  induction l with
  | nil => rfl
  | cons ch t ih =>
    by_cases h1 : ch = '\\'
    · subst h1
      simp [ih]
    · by_cases h2 : ch = '"'
      · subst h2
        simp [ih]
      · simp [h1, h2, ih]

/-- Escaping backslashes globally and then double quotes globally is the same
as the single character-wise escaping pass. -/
theorem replaceChain_eq_escapeSpec (v : String) :
    QuadletGenerator.replaceChar '"' "\\\"" (QuadletGenerator.replaceChar '\\' "\\\\" v) =
      escapeSpec v := by
  unfold QuadletGenerator.replaceChar escapeSpec
  exact congrArg String.mk (escape_chain_list v.data)

theorem escapeValue_eq_spec (v : String) :
    QuadletGenerator.escapeValue v =
      if v.data.contains ' ' then "\"" ++ escapeSpec v ++ "\"" else v := by
  unfold QuadletGenerator.escapeValue
  by_cases h : v.data.contains ' ' = true
  · rw [if_pos h, if_pos h, replaceChain_eq_escapeSpec]
  · rw [if_neg h, if_neg h]


/-! ### The claims -/

/-- C1 counterexample: `addVolume` accepts the bare absolute container path
"/data" and the serializer emits the line `Volume=/data`, but `Volume.parse`
rejects "/data", so re-parsing the produced line cannot yield the originally
set value; the claimed round trip fails for bare absolute-path volumes. -/
theorem claim_roundtrip_cex :
    Container.addVolume Container.new "/data" =
      some { Container.new with volume := ["/data"] } ∧
    filterKey "Volume"
        (QuadletGenerator.containerLines { Container.new with volume := ["/data"] }) =
      ["Volume=/data"] ∧
    Volume.parse "/data" = none := by
  decide

/-- C1 (amended): round-trip stability restricted to the representable
cases — every accepted publish port re-parses, after serialization of its
parsed form, to the same structured mapping (tcp elision included); every
accepted environment entry whose text contains no space is reconstructed
exactly by parsing its emitted (escaped) value; every accepted volume entry
containing a colon parses successfully.  Bare absolute-path volumes and
space-containing environment values are excluded, as forced by the
counterexample. -/
theorem claim_roundtrip (c c' : Container) (s : String) :
    (Container.addPublishPort c s = some c' →
      PortMapping.parse (PortMapping.toString (PortMapping.parse (jsTrim s))) =
        PortMapping.parse (jsTrim s)) ∧
    (Container.addEnvironment c s = some c' → (jsTrim s).data.contains ' ' = false →
      Environment.toString
          (Environment.parse (QuadletGenerator.escapeValue (jsTrim s))) = jsTrim s) ∧
    (Container.addVolume c s = some c' → (jsTrim s).data.contains ':' = true →
      (Volume.parse (jsTrim s)).isSome = true) := by
  refine ⟨?_, ?_, ?_⟩
  · intro h
    have hm := addPublishPort_matches c s c' h
    have h2 := parse_toString_roundtrip (jsTrim s).data hm
    rw [mk_data] at h2
    exact h2
  · intro h hsp
    have hq := addEnvironment_contains c s c' h
    rw [escapeValue_no_space (jsTrim s) hsp]
    have h3 := env_parse_toString (jsTrim s).data hq
    rw [mk_data] at h3
    exact h3
  · intro h hc
    have h4 := volume_parse_isSome (jsTrim s).data hc
    rw [mk_data] at h4
    exact h4

theorem claim_roundtrip_witness :
    (PortMapping.parse (PortMapping.toString (PortMapping.parse (jsTrim "8080:80/tcp"))) =
      PortMapping.parse (jsTrim "8080:80/tcp")) ∧
    (Environment.toString
        (Environment.parse (QuadletGenerator.escapeValue (jsTrim "KEY=val"))) =
      jsTrim "KEY=val") ∧
    ((Volume.parse (jsTrim "data:/data")).isSome = true) := by
  refine ⟨?_, ?_, ?_⟩
  · exact (claim_roundtrip Container.new
      { Container.new with publishPort := ["8080:80/tcp"] } "8080:80/tcp").1 (by decide)
  · exact (claim_roundtrip Container.new
      { Container.new with environment := ["KEY=val"] } "KEY=val").2.1 (by decide) (by decide)
  · exact (claim_roundtrip Container.new
      { Container.new with volume := ["data:/data"] } "data:/data").2.2 (by decide) (by decide)

/-- C2: Port validation — `addPublishPort` accepts a string exactly when its
trimmed form matches the anchored pattern `(\d+:)?\d+(/(tcp|udp|sctp))?`
and every colon-separated numeric component, after protocol-suffix
stripping, is an integer in [1, 65535]; non-matching strings are rejected,
and on success the trimmed string is pushed. -/
theorem claim_port_validation (c : Container) (s : String) :
    ((Container.addPublishPort c s).isSome = true ↔
      (matchesPortPattern (jsTrim s) = true ∧ portComponentsInRange (jsTrim s) = true)) ∧
    (∀ c', Container.addPublishPort c s = some c' →
      c' = { c with publishPort := c.publishPort ++ [jsTrim s] }) :=
  addPublishPort_spec c s

theorem claim_port_validation_witness :
    ((Container.addPublishPort Container.new "8080:80").isSome = true) ∧
    ((Container.addPublishPort Container.new "0:80").isSome = false) ∧
    ((Container.addPublishPort Container.new "80/udp").isSome = true) ∧
    ({ Container.new with publishPort := ["8080:80"] } =
      { Container.new with publishPort := Container.new.publishPort ++ [jsTrim "8080:80"] }) := by
  refine ⟨?_, ?_, ?_, ?_⟩
  · exact (claim_port_validation Container.new "8080:80").1.mpr ⟨by decide, by decide⟩
  · cases h : (Container.addPublishPort Container.new "0:80").isSome
    · rfl
    · exact absurd ((claim_port_validation Container.new "0:80").1.mp h).2 (by decide)
  · exact (claim_port_validation Container.new "80/udp").1.mpr ⟨by decide, by decide⟩
  · exact (claim_port_validation Container.new "8080:80").2 _ (by decide)

/-- C3: Idempotent cloning — `clone` copies every field of the container, so
the clone equals the original as a value and serializes to byte-identical
`[Container]` text.  (Heap independence of the copied arrays is visible in
the definition of `clone`, which rebuilds every list-valued field.) -/
theorem claim_clone (c : Container) :
    Container.clone c = c ∧
    QuadletGenerator.generateContainerSection (Container.clone c) =
      QuadletGenerator.generateContainerSection c :=
  ⟨rfl, rfl⟩

/-- C4: Section order and separation — `generateFile` is exactly the
newline-separated join of the present sections in the fixed order [Unit],
[Container], [GlobalArgs], [Service], [Install]; an absent option
contributes no section at all, and every section text ends with a newline,
so each inserted separator produces exactly one blank line between adjacent
sections. -/
theorem claim_sections (c : Container) (o : QuadletGenerator.GenerateOptions) :
    (QuadletGenerator.generateFile c o =
      sepJoin ((o.unit.map QuadletGenerator.generateUnitSection).toList
        ++ [QuadletGenerator.generateContainerSection c]
        ++ (match o.globals with
            | some g =>
              match g.podmanArgs with
              | some p =>
                if p.data.isEmpty then [] else ["[GlobalArgs]\nPodmanArgs=" ++ p ++ "\n"]
              | none => []
            | none => [])
        ++ (o.service.map QuadletGenerator.generateServiceSection).toList
        ++ (o.install.map QuadletGenerator.generateInstallSection).toList)) ∧
    (∀ u, endsWithNewline (QuadletGenerator.generateUnitSection u) = true) ∧
    (endsWithNewline (QuadletGenerator.generateContainerSection c) = true) ∧
    (∀ p : String, endsWithNewline ("[GlobalArgs]\nPodmanArgs=" ++ p ++ "\n") = true) ∧
    (∀ sv, endsWithNewline (QuadletGenerator.generateServiceSection sv) = true) ∧
    (∀ ins, endsWithNewline (QuadletGenerator.generateInstallSection ins) = true) :=
  ⟨generateFile_sepJoin c o, fun u => generateUnitSection_endsNL u,
    generateContainerSection_endsNL c,
    fun p => endsNL_append_nl ("[GlobalArgs]\nPodmanArgs=" ++ p),
    fun sv => generateServiceSection_endsNL sv, fun ins => generateInstallSection_endsNL ins⟩

/-- C5: Value escaping — `escapeValue`, applied by the serializer to every
environment, label and annotation entry, leaves a string without spaces
completely unchanged (even if it contains backslashes or quotes), and wraps
a string containing a space in double quotes after escaping backslashes
first and then double quotes, in one character-wise pass. -/
theorem claim_escaping (v : String) :
    (QuadletGenerator.escapeValue v =
      (if v.data.contains ' ' then "\"" ++ escapeSpec v ++ "\"" else v)) ∧
    (v.data.contains ' ' = false → QuadletGenerator.escapeValue v = v) :=
  ⟨escapeValue_eq_spec v, fun h => escapeValue_no_space v h⟩

theorem claim_escaping_witness :
    ("no\\quo\"te".data.contains ' ' = false) ∧
    (QuadletGenerator.escapeValue "no\\quo\"te" = "no\\quo\"te") ∧
    (QuadletGenerator.escapeValue "a b\\c\"d" = "\"a b\\\\c\\\"d\"") := by
  refine ⟨by decide, (claim_escaping "no\\quo\"te").2 (by decide), ?_⟩
  rw [(claim_escaping "a b\\c\"d").1]
  decide

/-- C6 counterexample: with dns = ["none", "1.1.1.1"], the serializer
emits a single `DNS=none` line, not one `DNS=` line per element as the
claim's blanket per-element rule demands. -/
theorem claim_list_emission_cex :
    filterKey "DNS"
        (QuadletGenerator.containerLines { Container.new with dns := ["none", "1.1.1.1"] }) =
      ["DNS=none"] ∧
    filterKey "DNS"
        (QuadletGenerator.containerLines { Container.new with dns := ["none", "1.1.1.1"] }) ≠
      ["none", "1.1.1.1"].map (fun d => QuadletGenerator.ln "DNS" d) := by
  decide

/-- C6 (amended): per-key line attribution — for every key K, the lines of
the `[Container]` section carrying key K are exactly the block of the one
field serialized under K: one line for a populated scalar field, one line
per element in insertion order for a list field, a single space-joined line
for AddCapability/DropCapability and a single `:`-joined line for Mask,
nothing for empty lists — with the additional DNS exception forced by the
counterexample (a dns list containing "none" collapses to the single line
`DNS=none`).  Fields without a Quadlet key (addDevice, mount,
exposeHostPort) never affect the output. -/
theorem claim_list_emission (K : String) (c : Container) (l1 l2 l3 : List String) :
    (filterKey K (QuadletGenerator.containerLines c) =
    (if "Image" = K then [QuadletGenerator.ln "Image" c.image] else [])
  ++ (if "ContainerName" = K then QuadletGenerator.optLine "ContainerName" c.containerName else [])
  ++ (if "Exec" = K then QuadletGenerator.optLine "Exec" c.exec else [])
  ++ (if "PublishPort" = K then c.publishPort.map (fun port => QuadletGenerator.ln "PublishPort" port) else [])
  ++ (if "Volume" = K then c.volume.map (fun v => QuadletGenerator.ln "Volume" v) else [])
  ++ (if "Environment" = K then c.environment.map (fun env => QuadletGenerator.ln "Environment" (QuadletGenerator.escapeValue env)) else [])
  ++ (if "EnvironmentFile" = K then c.environmentFile.map (fun file => QuadletGenerator.ln "EnvironmentFile" file) else [])
  ++ (if c.environmentHost then (if "EnvironmentHost" = K then [QuadletGenerator.ln "EnvironmentHost" "true"] else []) else [])
  ++ (if "Label" = K then c.label.map (fun lab => QuadletGenerator.ln "Label" (QuadletGenerator.escapeValue lab)) else [])
  ++ (if "Network" = K then c.network.map (fun nw => QuadletGenerator.ln "Network" nw) else [])
  ++ (if "NetworkAlias" = K then c.networkAlias.map (fun al => QuadletGenerator.ln "NetworkAlias" al) else [])
  ++ (if c.addCapability.isEmpty then [] else (if "AddCapability" = K then [QuadletGenerator.ln "AddCapability" (String.intercalate " " c.addCapability)] else []))
  ++ (if c.dropCapability.isEmpty then [] else (if "DropCapability" = K then [QuadletGenerator.ln "DropCapability" (String.intercalate " " c.dropCapability)] else []))
  ++ (if c.dns.isEmpty then []
      else if c.dns.contains "none" then (if "DNS" = K then [QuadletGenerator.ln "DNS" "none"] else [])
      else (if "DNS" = K then c.dns.map (fun d => QuadletGenerator.ln "DNS" d) else []))
  ++ (if "DNSOption" = K then c.dnsOption.map (fun o => QuadletGenerator.ln "DNSOption" o) else [])
  ++ (if "DNSSearch" = K then c.dnsSearch.map (fun sr => QuadletGenerator.ln "DNSSearch" sr) else [])
  ++ (if c.noNewPrivileges then (if "NoNewPrivileges" = K then [QuadletGenerator.ln "NoNewPrivileges" "true"] else []) else [])
  ++ (if c.securityLabelDisable then (if "SecurityLabelDisable" = K then [QuadletGenerator.ln "SecurityLabelDisable" "true"] else []) else [])
  ++ (if "SecurityLabelFileType" = K then QuadletGenerator.optLine "SecurityLabelFileType" c.securityLabelFileType else [])
  ++ (if "SecurityLabelLevel" = K then QuadletGenerator.optLine "SecurityLabelLevel" c.securityLabelLevel else [])
  ++ (if c.securityLabelNested then (if "SecurityLabelNested" = K then [QuadletGenerator.ln "SecurityLabelNested" "true"] else []) else [])
  ++ (if "SecurityLabelType" = K then QuadletGenerator.optLine "SecurityLabelType" c.securityLabelType else [])
  ++ (if "SeccompProfile" = K then QuadletGenerator.optLine "SeccompProfile" c.seccompProfile else [])
  ++ (if c.mask.isEmpty then [] else (if "Mask" = K then [QuadletGenerator.ln "Mask" (String.intercalate ":" c.mask)] else []))
  ++ (if "Unmask" = K then QuadletGenerator.optLine "Unmask" c.unmask else [])
  ++ (if "User" = K then QuadletGenerator.optLine "User" c.user else [])
  ++ (if "Group" = K then QuadletGenerator.optLine "Group" c.group else [])
  ++ (if "GroupAdd" = K then c.groupAdd.map (fun g => QuadletGenerator.ln "GroupAdd" g) else [])
  ++ (if "UserNS" = K then QuadletGenerator.optLine "UserNS" c.userNS else [])
  ++ (if "UIDMap" = K then c.uidMap.map (fun m => QuadletGenerator.ln "UIDMap" m) else [])
  ++ (if "GIDMap" = K then c.gidMap.map (fun m => QuadletGenerator.ln "GIDMap" m) else [])
  ++ (if "SubUIDMap" = K then QuadletGenerator.optLine "SubUIDMap" c.subUidMap else [])
  ++ (if "SubGIDMap" = K then QuadletGenerator.optLine "SubGIDMap" c.subGidMap else [])
  ++ (if c.readOnly then (if "ReadOnly" = K then [QuadletGenerator.ln "ReadOnly" "true"] else []) else [])
  ++ (if c.readOnlyTmpfs then [] else (if "ReadOnlyTmpfs" = K then [QuadletGenerator.ln "ReadOnlyTmpfs" "false"] else []))
  ++ (if c.runInit then (if "RunInit" = K then [QuadletGenerator.ln "RunInit" "true"] else []) else [])
  ++ (if "WorkingDir" = K then QuadletGenerator.optLine "WorkingDir" c.workingDir else [])
  ++ (if "HostName" = K then QuadletGenerator.optLine "HostName" c.hostName else [])
  ++ (if "Timezone" = K then QuadletGenerator.optLine "Timezone" c.timezone else [])
  ++ (if "ShmSize" = K then QuadletGenerator.optLine "ShmSize" c.shmSize else [])
  ++ (if "Tmpfs" = K then c.tmpfs.map (fun t => QuadletGenerator.ln "Tmpfs" t) else [])
  ++ (if "HealthCmd" = K then QuadletGenerator.optLine "HealthCmd" c.healthCmd else [])
  ++ (if "HealthInterval" = K then QuadletGenerator.optLine "HealthInterval" c.healthInterval else [])
  ++ (if "HealthOnFailure" = K then QuadletGenerator.optLine "HealthOnFailure" c.healthOnFailure else [])
  ++ (if "HealthRetries" = K then QuadletGenerator.optLine "HealthRetries" c.healthRetries else [])
  ++ (if "HealthStartPeriod" = K then QuadletGenerator.optLine "HealthStartPeriod" c.healthStartPeriod else [])
  ++ (if "HealthTimeout" = K then QuadletGenerator.optLine "HealthTimeout" c.healthTimeout else [])
  ++ (if "HealthStartupCmd" = K then QuadletGenerator.optLine "HealthStartupCmd" c.healthStartupCmd else [])
  ++ (if "HealthStartupInterval" = K then QuadletGenerator.optLine "HealthStartupInterval" c.healthStartupInterval else [])
  ++ (if "HealthStartupRetries" = K then QuadletGenerator.optLine "HealthStartupRetries" c.healthStartupRetries else [])
  ++ (if "HealthStartupSuccess" = K then QuadletGenerator.optLine "HealthStartupSuccess" c.healthStartupSuccess else [])
  ++ (if "HealthStartupTimeout" = K then QuadletGenerator.optLine "HealthStartupTimeout" c.healthStartupTimeout else [])
  ++ (if ¬(c.notify = "") ∧ ¬(c.notify = "conmon") then
        (if c.notify = "container" then (if "Notify" = K then [QuadletGenerator.ln "Notify" "true"] else [])
         else if c.notify = "healthy" then (if "Notify" = K then [QuadletGenerator.ln "Notify" "healthy"] else [])
         else [])
      else [])
  ++ (if "StopSignal" = K then QuadletGenerator.optLine "StopSignal" c.stopSignal else [])
  ++ (if "StopTimeout" = K then QuadletGenerator.optLine "StopTimeout" c.stopTimeout else [])
  ++ (if "Pod" = K then QuadletGenerator.optLine "Pod" c.pod else [])
  ++ (if "LogDriver" = K then QuadletGenerator.optLine "LogDriver" c.logDriver else [])
  ++ (if "LogOpt" = K then c.logOpt.map (fun o => QuadletGenerator.ln "LogOpt" o) else [])
  ++ (if "Annotation" = K then ( Container.annotation c).map (fun a => QuadletGenerator.ln "Annotation" (QuadletGenerator.escapeValue a)) else [])
  ++ (if "PidsLimit" = K then QuadletGenerator.optLine "PidsLimit" c.pidsLimit else [])
  ++ (if "Ulimit" = K then c.ulimit.map (fun u => QuadletGenerator.ln "Ulimit" u) else [])
  ++ (if "Sysctl" = K then c.sysctl.map (fun sc => QuadletGenerator.ln "Sysctl" sc) else [])
  ++ (if "AutoUpdate" = K then QuadletGenerator.optLine "AutoUpdate" c.autoUpdate else [])
  ++ (if "Pull" = K then QuadletGenerator.optLine "Pull" c.pull else [])
  ++ (if "Secret" = K then c.secret.map (fun sec => QuadletGenerator.ln "Secret" sec) else [])
  ++ (if "Rootfs" = K then QuadletGenerator.optLine "Rootfs" c.rootfs else [])
  ++ (if "Entrypoint" = K then QuadletGenerator.optLine "Entrypoint" c.entrypoint else [])
  ++ (if "IP" = K then QuadletGenerator.optLine "IP" c.ip else [])
  ++ (if "IP6" = K then QuadletGenerator.optLine "IP6" c.ip6 else [])
  ++ (if "PodmanArgs" = K then QuadletGenerator.optLine "PodmanArgs" c.podmanArgs else [])) ∧
    (QuadletGenerator.containerLines
        { c with addDevice := l1, mount := l2, exposeHostPort := l3 } =
      QuadletGenerator.containerLines c) :=
  ⟨filterKey_containerLines K c, rfl⟩

/-- C7: Boolean emission policy — each boolean field emits its `Key=true`
line exactly when the field is true and never emits a `=false` form;
`ReadOnlyTmpfs` is the sole exception: `ReadOnlyTmpfs=false` is emitted
exactly when the field was set to false, and no `ReadOnlyTmpfs` line is
emitted when it is true. -/
theorem claim_bool_emission (c : Container) :
    (filterKey "NoNewPrivileges" (QuadletGenerator.containerLines c) =
      (if c.noNewPrivileges then [QuadletGenerator.ln "NoNewPrivileges" "true"] else [])) ∧
    (filterKey "SecurityLabelDisable" (QuadletGenerator.containerLines c) =
      (if c.securityLabelDisable then [QuadletGenerator.ln "SecurityLabelDisable" "true"]
       else [])) ∧
    (filterKey "SecurityLabelNested" (QuadletGenerator.containerLines c) =
      (if c.securityLabelNested then [QuadletGenerator.ln "SecurityLabelNested" "true"]
       else [])) ∧
    (filterKey "EnvironmentHost" (QuadletGenerator.containerLines c) =
      (if c.environmentHost then [QuadletGenerator.ln "EnvironmentHost" "true"] else [])) ∧
    (filterKey "ReadOnly" (QuadletGenerator.containerLines c) =
      (if c.readOnly then [QuadletGenerator.ln "ReadOnly" "true"] else [])) ∧
    (filterKey "RunInit" (QuadletGenerator.containerLines c) =
      (if c.runInit then [QuadletGenerator.ln "RunInit" "true"] else [])) ∧
    (filterKey "ReadOnlyTmpfs" (QuadletGenerator.containerLines c) =
      (if c.readOnlyTmpfs then [] else [QuadletGenerator.ln "ReadOnlyTmpfs" "false"])) := by
  refine ⟨?_, ?_, ?_, ?_, ?_, ?_, ?_⟩ <;> (rw [filterKey_containerLines]; simp)

/-- C8 counterexample: the raw string " my_app-1 " does not match
`^[A-Za-z0-9][A-Za-z0-9_.-]*$`, yet `setContainerName` accepts it, storing
the trimmed name — refuting the claimed accept-iff-raw-string-matches rule. -/
theorem claim_name_validation_cex :
    matchesNamePattern " my_app-1 " = false ∧
    (Container.setContainerName Container.new " my_app-1 ").isSome = true ∧
    Container.setContainerName Container.new " my_app-1 " =
      some { Container.new with containerName := some "my_app-1" } := by
  decide

/-- C8 (amended): `setContainerName` accepts a string exactly when the
trimmed string matches `^[A-Za-z0-9][A-Za-z0-9_.-]*$`, storing the trimmed
string as the container name. -/
theorem claim_name_validation (c : Container) (s : String) :
    ((Container.setContainerName c s).isSome = true ↔
      matchesNamePattern (jsTrim s) = true) ∧
    (∀ c', Container.setContainerName c s = some c' →
      c' = { c with containerName := some (jsTrim s) }) :=
  setContainerName_spec c s

theorem claim_name_validation_witness :
    ((Container.setContainerName Container.new "my_app-1").isSome = true) ∧
    ((Container.setContainerName Container.new "-bad").isSome = false) ∧
    ((Container.setContainerName Container.new "bad name").isSome = false) ∧
    ({ Container.new with containerName := some "my_app-1" } =
      { Container.new with containerName := some (jsTrim "my_app-1") }) := by
  refine ⟨?_, ?_, ?_, ?_⟩
  · exact (claim_name_validation Container.new "my_app-1").1.mpr (by decide)
  · cases h : (Container.setContainerName Container.new "-bad").isSome
    · rfl
    · exact absurd ((claim_name_validation Container.new "-bad").1.mp h) (by decide)
  · cases h : (Container.setContainerName Container.new "bad name").isSome
    · rfl
    · exact absurd ((claim_name_validation Container.new "bad name").1.mp h) (by decide)
  · exact (claim_name_validation Container.new "my_app-1").2 _ (by decide)

/-- C9: DNS none collapse — whenever the dns list contains the entry
"none", the serializer emits exactly one line `DNS=none` and suppresses
every other dns entry; otherwise it emits one `DNS=` line per element in
order, and an empty list emits nothing. -/
theorem claim_dns_none (c : Container) :
    filterKey "DNS" (QuadletGenerator.containerLines c) =
      (if c.dns.isEmpty then []
       else if c.dns.contains "none" then [QuadletGenerator.ln "DNS" "none"]
       else c.dns.map (fun d => QuadletGenerator.ln "DNS" d)) := by
  rw [filterKey_containerLines]
  simp

/-- C10: Mutator update behaviour — each validating mutator, when it
succeeds, returns the container with exactly its one field set (the trimmed
input for the trimming mutators, the raw command for setExec) or exactly one
trimmed element appended, every other field unchanged; a failing call
returns no container at all, the pure-functional rendering of
"no partial update". -/
theorem claim_mutator_atomicity (c : Container) (s : String) :
    (∀ c', Container.setImage c s = some c' → c' = { c with image := jsTrim s }) ∧
    (∀ c', Container.setContainerName c s = some c' →
      c' = { c with containerName := some (jsTrim s) }) ∧
    (Container.setExec c s = some { c with exec := some s }) ∧
    (∀ c', Container.addPublishPort c s = some c' →
      c' = { c with publishPort := c.publishPort ++ [jsTrim s] }) ∧
    (∀ c', Container.addEnvironment c s = some c' →
      c' = { c with environment := c.environment ++ [jsTrim s] }) ∧
    (∀ c', Container.addVolume c s = some c' →
      c' = { c with volume := c.volume ++ [jsTrim s] }) ∧
    (∀ c', Container.addLabel c s = some c' →
      c' = { c with label := c.label ++ [jsTrim s] }) :=
  ⟨(setImage_spec c s).2, (setContainerName_spec c s).2, setExec_spec c s,
    (addPublishPort_spec c s).2, (addEnvironment_spec c s).2, (addVolume_spec c s).2,
    (addLabel_spec c s).2⟩

theorem claim_mutator_atomicity_witness :
    ({ Container.new with image := "nginx" } = { Container.new with image := jsTrim " nginx " }) ∧
    ({ Container.new with containerName := some "web" } =
      { Container.new with containerName := some (jsTrim "web") }) ∧
    ({ Container.new with publishPort := ["80"] } =
      { Container.new with publishPort := Container.new.publishPort ++ [jsTrim "80"] }) ∧
    ({ Container.new with environment := ["A=b"] } =
      { Container.new with environment := Container.new.environment ++ [jsTrim "A=b"] }) ∧
    ({ Container.new with volume := ["/v"] } =
      { Container.new with volume := Container.new.volume ++ [jsTrim "/v"] }) ∧
    ({ Container.new with label := ["k=v"] } =
      { Container.new with label := Container.new.label ++ [jsTrim "k=v"] }) := by
  refine ⟨?_, ?_, ?_, ?_, ?_, ?_⟩
  · exact (claim_mutator_atomicity Container.new " nginx ").1 _ (by decide)
  · exact (claim_mutator_atomicity Container.new "web").2.1 _ (by decide)
  · exact (claim_mutator_atomicity Container.new "80").2.2.2.1 _ (by decide)
  · exact (claim_mutator_atomicity Container.new "A=b").2.2.2.2.1 _ (by decide)
  · exact (claim_mutator_atomicity Container.new "/v").2.2.2.2.2.1 _ (by decide)
  · exact (claim_mutator_atomicity Container.new "k=v").2.2.2.2.2.2 _ (by decide)

end Podlet
